import Mathlib

/-!
# SafeFall front end

A shallow embedding of three parts of the front end:

* `src/Front/src/utils/backendUrls.js` (namespace `BackendUrls`): the backend base URL and
  the joining of URLs;
* `src/Front/src/App.jsx`, component `AlertManager` (namespace `AlertManager`): the
  notification poll, the alert record and its dismissal;
* `src/Front/src/components/LiveVideo.jsx` (namespace `LiveVideo`): the live-stream delivery
  controller.

The React components keep their state in `useState` cells and `useRef` cells; here they are
the fields of one record per component.  Every callback of a component is a pure function on
that record.  Values read from the environment (`Date.now()`, the fetch outcome, the natural
size of the image, the `cancelled` flag of the enclosing effect) are explicit arguments.  A
callback that arms a `setTimeout` returns the delay as a second component.
-/

/-! ## JavaScript values -/

namespace Js

/-- The JavaScript values that a JSON field or a configuration value can hold here; numbers
are integers.  A missing key reads as `undefined`. -/
inductive JsVal where
  | undefined
  | null
  | bool (b : Bool)
  | num (n : Int)
  | str (s : String)
  deriving DecidableEq, Repr

/-- JavaScript truthiness (`ToBoolean`). -/
def JsVal.truthy : JsVal → Bool
  | JsVal.undefined => false
  | JsVal.null => false
  | JsVal.bool b => b
  | JsVal.num n => decide (n ≠ 0)
  | JsVal.str s => decide (s ≠ "")

/-- The expression `a || b`. -/
def JsVal.orElse (a b : JsVal) : JsVal :=
  if a.truthy then a else b

/-- The conversion `String(v)`.  The text of a number (decimal digits, or exponent notation
from 1e21 on) is the platform function `numberToString`. -/
def JsVal.toJsString (numberToString : Int → String) : JsVal → String
  | JsVal.undefined => "undefined"
  | JsVal.null => "null"
  | JsVal.bool true => "true"
  | JsVal.bool false => "false"
  | JsVal.num n => numberToString n
  | JsVal.str s => s

end Js

/-! ## backendUrls.js -/

namespace BackendUrls

open Js

/-- The characters removed by `String.prototype.trim` (white space and line terminators). -/
def isJsWhiteSpace (c : Char) : Bool :=
  let n := c.toNat
  (decide (9 ≤ n) && decide (n ≤ 13)) || n == 32 || n == 160 || n == 5760 ||
  (decide (8192 ≤ n) && decide (n ≤ 8202)) || n == 8232 || n == 8233 || n == 8239 ||
  n == 8287 || n == 12288 || n == 65279

/-- The method `String.prototype.trim`. -/
def jsTrim (s : String) : String :=
  ⟨((s.data.dropWhile isJsWhiteSpace).reverse.dropWhile isJsWhiteSpace).reverse⟩

/-- The function `trimTrailingSlash` (line 8): `value.replace(/\/+$/, '')`. -/
def trimTrailingSlash (value : String) : String :=
  ⟨(value.data.reverse.dropWhile (fun c => c == '/')).reverse⟩

/-- The function `trimLeadingSlash` (line 9): `value.replace(/^\/+/, '')`. -/
def trimLeadingSlash (value : String) : String :=
  ⟨value.data.dropWhile (fun c => c == '/')⟩

/-- Does `(?:\/v[0-9]+)?\/?$` match the whole of `t`? -/
def isVersionTail : List Char → Bool
  | [] => true
  | ['/'] => true
  | '/' :: v :: ds =>
    (v == 'v' || v == 'V') &&
      (let digits := if ds.getLast? = some '/' then ds.dropLast else ds
       !digits.isEmpty && digits.all Char.isDigit)
  | _ => false

/-- Does `/\/api(?:\/v[0-9]+)?\/?$/i` match the whole of `t`? -/
def isApiTail : List Char → Bool
  | '/' :: a :: p :: i :: rest =>
    (a == 'a' || a == 'A') && (p == 'p' || p == 'P') && (i == 'i' || i == 'I') &&
      isVersionTail rest
  | _ => false

/-- Remove the leftmost suffix that `isApiTail` accepts. -/
def dropApiSuffixChars : List Char → List Char
  | [] => []
  | c :: cs => if isApiTail (c :: cs) then [] else c :: dropApiSuffixChars cs

/-- The function `dropApiSuffix` (line 10):
`value.replace(/\/api(?:\/v[0-9]+)?\/?$/i, '')`. -/
def dropApiSuffix (value : String) : String :=
  ⟨dropApiSuffixChars value.data⟩

/-- The function `joinUrlInternal` (lines 14-24). -/
def joinUrlInternal (base : String) (path : String) : String :=
  let normalizedBase := trimTrailingSlash base
  let normalizedPath := trimLeadingSlash path
  if normalizedPath = "" then normalizedBase
  else if normalizedBase = "" then "/" ++ normalizedPath
  else normalizedBase ++ "/" ++ normalizedPath

/-- The exported function `joinUrl` (line 43). -/
def joinUrl (base : String) (path : String) : String :=
  joinUrlInternal base path

/-- The global object `window`, as far as `getBackendBaseUrl` reads it:
`window.__SAFEFALL_BACKEND__` and `window.location`. -/
structure Window where
  safefallBackend : JsVal
  protocol : String
  hostname : String

/-- What `getBackendBaseUrl` reads besides its argument: `window` (`none` when
there is no `window`), the two variables of `import.meta.env` (`none` when
unset), and the conversion of a number to a string used by `String(v)`. -/
structure Runtime where
  numberToString : Int → String
  window : Option Window
  viteBackendUrl : Option String
  viteApiBaseUrl : Option String

/-- Truthiness of an environment variable: set and not the empty string. -/
def envSet : Option String → Option String
  | some s => if s = "" then none else some s
  | none => none

/-- The function `getBackendBaseUrl` (lines 45-67).  `normalizeLocalhost` (lines 26-41)
rests on the URL parser of the platform and is a parameter. -/
def getBackendBaseUrl (normalizeLocalhost : String → String) (rt : Runtime)
    (preferred : JsVal) : String :=
  match (match preferred with
         | JsVal.str p => if jsTrim p = "" then none else some (trimTrailingSlash (jsTrim p))
         | _ => none) with
  | some url => url
  | none =>
    match (match rt.window with
           | some w =>
             if w.safefallBackend.truthy then
               some (trimTrailingSlash (w.safefallBackend.toJsString rt.numberToString))
             else none
           | none => none) with
    | some url => url
    | none =>
      match envSet rt.viteBackendUrl with
      | some v => trimTrailingSlash v
      | none =>
        match envSet rt.viteApiBaseUrl with
        | some v => normalizeLocalhost (dropApiSuffix v)
        | none =>
          match rt.window with
          | some w => w.protocol ++ "//" ++ w.hostname ++ ":5000"
          | none => "http://localhost:5000"

/-- The explicit override named by the specification: the argument, when it is a string
that is not blank, trimmed and without trailing slashes. -/
def explicitSource : JsVal → Option String
  | JsVal.str p => if jsTrim p = "" then none else some (trimTrailingSlash (jsTrim p))
  | _ => none

/-- The global runtime override named by the specification: the truthy value of
`window.__SAFEFALL_BACKEND__`, as a string without trailing slashes. -/
def globalSource (rt : Runtime) : Option String :=
  match rt.window with
  | some w =>
    if w.safefallBackend.truthy then
      some (trimTrailingSlash (w.safefallBackend.toJsString rt.numberToString))
    else none
  | none => none

/-- The environment source named by the specification: `VITE_BACKEND_URL`, else
`VITE_API_BASE_URL` without its API suffix. -/
def environmentSource (normalizeLocalhost : String → String) (rt : Runtime) : Option String :=
  match envSet rt.viteBackendUrl with
  | some v => some (trimTrailingSlash v)
  | none =>
    match envSet rt.viteApiBaseUrl with
    | some v => some (normalizeLocalhost (dropApiSuffix v))
    | none => none

/-- The same-origin default on port 5000 named by the specification. -/
def sameOriginDefault (rt : Runtime) : String :=
  match rt.window with
  | some w => w.protocol ++ "//" ++ w.hostname ++ ":5000"
  | none => "http://localhost:5000"

/-- The first available source of a list in order, else the default. -/
def firstAvailable : List (Option String) → String → String
  | [], dflt => dflt
  | some url :: _, _ => url
  | none :: rest, dflt => firstAvailable rest dflt

/-- A runtime with a global override and both environment variables set. -/
def busyRuntime : Runtime :=
  { numberToString := fun n => toString n
    window := some { safefallBackend := JsVal.str "http://global:1/", protocol := "https:",
                     hostname := "page.example" }
    viteBackendUrl := some "http://env:2/"
    viteApiBaseUrl := some "http://env:3/api/v1" }

end BackendUrls

/-! ## App.jsx: the component AlertManager -/

namespace AlertManager

open Js

/-- One element of `data.notifications`, read field by field; a key that is missing reads as
`undefined`, and so does every key of an element that is `null` or not an object (`n?.id`). -/
structure Notification where
  id : JsVal
  title : JsVal
  message : JsVal
  severity : JsVal
  device_id : JsVal
  type : JsVal
  filename : JsVal
  createdAt : JsVal
  deriving DecidableEq, Repr

/-- The parsed body `data` of the notifications endpoint: `count` is the JSON number (`none`
when the key is missing or null), `notifications` the array (`none` when the value is not an
array). -/
structure PollData where
  count : Option Int
  notifications : Option (List Notification)
  deriving DecidableEq, Repr

/-- The object held by the state cell `alertData`; a key that is missing reads as
`undefined`. -/
structure AlertData where
  createdAt : JsVal
  device_id : JsVal
  type : JsVal
  filename : JsVal
  title : JsVal
  message : JsVal
  severity : JsVal
  id : JsVal
  deriving DecidableEq, Repr

/-- The empty object that `useState` starts with and `handleCloseAlert` stores. -/
def emptyAlert : AlertData :=
  { createdAt := JsVal.undefined, device_id := JsVal.undefined, type := JsVal.undefined,
    filename := JsVal.undefined, title := JsVal.undefined, message := JsVal.undefined,
    severity := JsVal.undefined, id := JsVal.undefined }

/-- The argument `additionalData` of `showNotification`: for each key, `none` when the
object has no such key and `some v` when it has the key with value `v` (`v` may be
`undefined`). -/
structure AdditionalData where
  id : Option JsVal
  device_id : Option JsVal
  type : Option JsVal
  filename : Option JsVal
  createdAt : Option JsVal
  deriving DecidableEq, Repr

/-- The default value of `additionalData`, the empty object. -/
def noAdditionalData : AdditionalData :=
  { id := none, device_id := none, type := none, filename := none, createdAt := none }

/-- The state cells `showAlert` and `alertData` and the set `shownIdsRef.current` (its
members in insertion order). -/
structure AlertManagerState where
  showAlert : Bool
  alertData : AlertData
  shownIds : List JsVal
  deriving DecidableEq, Repr

/-- The state of the component at mount (lines 162-166). -/
def initialState : AlertManagerState :=
  { showAlert := false, alertData := emptyAlert, shownIds := [] }

/-- The method `Set.prototype.has`. -/
def setHas (x : JsVal) (set : List JsVal) : Bool :=
  decide (x ∈ set)

/-- The method `Set.prototype.add`. -/
def setAdd (x : JsVal) (set : List JsVal) : List JsVal :=
  if x ∈ set then set else set ++ [x]

/-- The function `showNotification` (lines 168-181): `nowIso` is
`new Date().toISOString()`, `nowMs` is `Date.now()`.  The keys of `additionalData` are
spread last and override the keys computed before them. -/
def showNotification (nowIso : String) (nowMs : Nat) (title message severity : JsVal)
    (additionalData : AdditionalData) (s : AlertManagerState) : AlertManagerState :=
  let createdAt := JsVal.str nowIso
  let device_id :=
    (additionalData.device_id.getD JsVal.undefined).orElse (JsVal.str "camera_01")
  let type :=
    if severity = JsVal.str "high" then JsVal.str "fall"
    else if severity = JsVal.str "medium" then JsVal.str "frame"
    else JsVal.str "normal"
  let filename :=
    (additionalData.filename.getD JsVal.undefined).orElse
      (JsVal.str ("alert_" ++ toString nowMs ++ ".mp4"))
  { s with
    alertData :=
      { createdAt := additionalData.createdAt.getD createdAt
        device_id := additionalData.device_id.getD device_id
        type := additionalData.type.getD type
        filename := additionalData.filename.getD filename
        title := title
        message := message
        severity := severity
        id := additionalData.id.getD JsVal.undefined }
    showAlert := true }

/-- The callback of `filter` in the poll (lines 237-241). -/
def isFresh (shownIds : List JsVal) (n : Notification) : Bool :=
  if n.id.truthy = false then false
  else if setHas n.id shownIds then false
  else true

/-- The block of lines 246-265: add the id of `first` to the set and call
`showNotification` with the fields of `first` and their defaults. -/
def presentFirst (nowIso : String) (nowMs : Nat) (first : Notification)
    (s : AlertManagerState) : AlertManagerState :=
  let s1 := { s with shownIds := setAdd first.id s.shownIds }
  showNotification nowIso nowMs
    (first.title.orElse (JsVal.str "알림"))
    (first.message.orElse (JsVal.str "새로운 알림이 있습니다"))
    (first.severity.orElse (JsVal.str "medium"))
    { id := some first.id
      device_id := some first.device_id
      type := some first.type
      filename := some first.filename
      createdAt := some first.createdAt }
    s1

/-- The body of the interval callback after the fetch (lines 230-276).  `resp` is the
parsed body, `none` when the fetch or the JSON parsing throws or the body is falsy; the
second component is the notification handed to `showNotification`, if any. -/
def pollNotifications (nowIso : String) (nowMs : Nat) (resp : Option PollData)
    (s : AlertManagerState) : AlertManagerState × Option Notification :=
  match resp with
  | none => (s, none)
  | some data =>
    match data.count, data.notifications with
    | some count, some notifications =>
      if count > 0 then
        let fresh := notifications.filter (isFresh s.shownIds)
        match fresh with
        | [] => (s, none)
        | first :: _ => (presentFirst nowIso nowMs first s, some first)
      else (s, none)
    | _, _ => (s, none)

/-- The function `handleCloseAlert` (lines 183-201).  `checkIncident` is
`apiService.checkIncident` (api.js, lines 330-341), which resolves or throws.  The result is
the state after the handler and the list of ids `checkIncident` was called with; an
exception that leaves the handler would be `Except.error`. -/
def handleCloseAlert (checkIncident : JsVal → Except String Unit) (s : AlertManagerState) :
    Except String (AlertManagerState × List JsVal) :=
  let closed := { s with showAlert := false, alertData := emptyAlert }
  if s.alertData.id.truthy then
    match checkIncident s.alertData.id with
    | Except.ok _ => Except.ok (closed, [s.alertData.id])
    | Except.error _ => Except.ok (closed, [s.alertData.id])
  else Except.ok (closed, [])

/-- An acknowledgement endpoint that always succeeds or always fails. -/
def ackEndpoint (fails : Bool) : JsVal → Except String Unit :=
  fun _ => if fails then Except.error "request failed" else Except.ok ()

/-- The function `handleCloseAlert` of an earlier render: `captured` is the `alertData` of
that render, which the closure reads at line 185; the state cells it writes (lines 199-200)
are the current ones.  `handleCloseAlert checkIncident s` is the case
`captured = s.alertData`. -/
def handleCloseAlertAt (captured : AlertData) (checkIncident : JsVal → Except String Unit)
    (s : AlertManagerState) : Except String (AlertManagerState × List JsVal) :=
  let closed := { s with showAlert := false, alertData := emptyAlert }
  if captured.id.truthy then
    match checkIncident captured.id with
    | Except.ok _ => Except.ok (closed, [captured.id])
    | Except.error _ => Except.ok (closed, [captured.id])
  else Except.ok (closed, [])

/-- The component `AlertManager` together with the component `Alert` it renders
(Alter.jsx).  `escListener` is the keydown listener registered by the effect of Alter.jsx,
lines 83-97: `none` when none is registered, else the `alertData` held by the `onClose`
closure that the listener calls. -/
structure AlertPage where
  manager : AlertManagerState
  escListener : Option AlertData
  deriving DecidableEq, Repr

/-- The page at mount: no alert, no listener. -/
def initialPage : AlertPage :=
  { manager := initialState, escListener := none }

/-- The re-render after the state of `AlertManager` changed to `after`.  The effect of
Alter.jsx, lines 83-97, has the dependency list `[isVisible]`: it runs again only when
`showAlert` changed, and then registers a listener that calls the `onClose` of this render
(when the alert is visible) or registers none. -/
def renderPage (before : AlertPage) (after : AlertManagerState) : AlertPage :=
  { manager := after
    escListener :=
      if after.showAlert = before.manager.showAlert then before.escListener
      else if after.showAlert then some after.alertData
      else none }

/-- The events of the page: a poll cycle, a click on a closing button of the alert (its
`onClick` is the `handleClose` of the latest render), a press of the Escape key. -/
inductive PageEvent where
  | poll (nowIso : String) (nowMs : Nat) (resp : Option PollData)
  | closeButton (ackFails : Bool)
  | escapeKey (ackFails : Bool)
  deriving DecidableEq, Repr

/-- One event of the page: the page after it and the ids the acknowledgement endpoint was
called with. -/
def stepPage (page : AlertPage) : PageEvent → AlertPage × List JsVal
  | PageEvent.poll nowIso nowMs resp =>
    (renderPage page (pollNotifications nowIso nowMs resp page.manager).1, [])
  | PageEvent.closeButton ackFails =>
    if page.manager.showAlert then
      match handleCloseAlertAt page.manager.alertData (ackEndpoint ackFails) page.manager with
      | Except.ok (s1, calls) => (renderPage page s1, calls)
      | Except.error _ => (page, [])
    else (page, [])
  | PageEvent.escapeKey ackFails =>
    match page.escListener with
    | some captured =>
      match handleCloseAlertAt captured (ackEndpoint ackFails) page.manager with
      | Except.ok (s1, calls) => (renderPage page s1, calls)
      | Except.error _ => (page, [])
    | none => (page, [])

/-- A sequence of page events, oldest first: the final page and all acknowledged ids. -/
def runPage (page : AlertPage) (calls : List JsVal) : List PageEvent → AlertPage × List JsVal
  | [] => (page, calls)
  | e :: es => runPage (stepPage page e).1 (calls ++ (stepPage page e).2) es

/-- The function `window.clearNotificationCache` (lines 389-393). -/
def clearNotificationCache (s : AlertManagerState) : AlertManagerState :=
  { s with shownIds := [] }

/-- The events of the component: a poll cycle with its response, a dismissal of the alert
(with the outcome of the acknowledgement), a clearing of the cache from the console. -/
inductive AlertEvent where
  | poll (nowIso : String) (nowMs : Nat) (resp : Option PollData)
  | close (ackFails : Bool)
  | clearCache
  deriving DecidableEq, Repr

/-- Is this event a clearing of the cache? -/
def AlertEvent.isClear : AlertEvent → Bool
  | AlertEvent.clearCache => true
  | _ => false

/-- One event: the state after it and the notification it presented, if any. -/
def stepAlert (s : AlertManagerState) : AlertEvent → AlertManagerState × Option Notification
  | AlertEvent.poll nowIso nowMs resp => pollNotifications nowIso nowMs resp s
  | AlertEvent.close ackFails =>
    match handleCloseAlert (ackEndpoint ackFails) s with
    | Except.ok (s1, _) => (s1, none)
    | Except.error _ => (s, none)
  | AlertEvent.clearCache => (clearNotificationCache s, none)

/-- A sequence of events, oldest first, from state `s` with the notifications presented so
far in `log`: the final state and all presented notifications in order. -/
def runAlerts (s : AlertManagerState) (log : List Notification) :
    List AlertEvent → AlertManagerState × List Notification
  | [] => (s, log)
  | e :: es =>
    runAlerts (stepAlert s e).1
      (match (stepAlert s e).2 with
       | some n => log ++ [n]
       | none => log) es

/-- A poll response with a positive count and the given list. -/
def pollOf (notifications : List Notification) : AlertEvent :=
  AlertEvent.poll "" 0
    (some { count := some 1, notifications := some notifications })

/-- One poll cycle of a scenario: the times read by the callback, the reported count and
the notifications that follow the common list in the response. -/
structure Cycle where
  nowIso : String
  nowMs : Nat
  count : Int
  extra : List Notification
  deriving DecidableEq, Repr

/-- Successive poll cycles whose lists extend the list `L`: the cycle number `j + 1`
returns the first `j + 1` elements of `L` followed by the extra elements of that cycle. -/
def cyclesExtending (L : List Notification) : Nat → List Cycle → List AlertEvent
  | _, [] => []
  | j, c :: cs =>
    AlertEvent.poll c.nowIso c.nowMs
      (some { count := some c.count, notifications := some (L.take (j + 1) ++ c.extra) })
      :: cyclesExtending L (j + 1) cs

/-- A notification that carries only an id. -/
def notificationWithId (id : JsVal) : Notification :=
  { id := id, title := JsVal.undefined, message := JsVal.undefined,
    severity := JsVal.undefined, device_id := JsVal.undefined, type := JsVal.undefined,
    filename := JsVal.undefined, createdAt := JsVal.undefined }

/-- The notifications A, B and C of the scenario. -/
def notifA : Notification := notificationWithId (JsVal.str "A")

def notifB : Notification := notificationWithId (JsVal.str "B")

def notifC : Notification := notificationWithId (JsVal.str "C")

/-- Two poll cycles of the page: the first presents A, the second, while A is still
displayed, presents B. -/
def replacedAlertRun : List PageEvent :=
  [ PageEvent.poll "" 0 (some { count := some 2, notifications := some [notifA, notifB] }),
    PageEvent.poll "" 3000
      (some { count := some 2, notifications := some [notifA, notifB] }) ]

/-- A notification with every field set. -/
def fullNotification : Notification :=
  { id := JsVal.num 7, title := JsVal.str "Fall", message := JsVal.str "Living room",
    severity := JsVal.str "high", device_id := JsVal.str "camera_02",
    type := JsVal.str "fall", filename := JsVal.str "clip.mp4",
    createdAt := JsVal.str "2025-01-01T00:00:00Z" }

end AlertManager

namespace LiveVideo

/-! ## Constants (LiveVideo.jsx, lines 12-17) -/

def SNAPSHOT_INTERVAL_MS : Nat := 800
def STALE_THRESHOLD_MS : Nat := 6000
def STALE_CHECK_MS : Nat := 2000
def SNAPSHOT_BACKOFF_MAX_MS : Nat := 10000
def SNAPSHOT_BACKOFF_GROWTH : Nat := 2
def MAX_CONSECUTIVE_404S : Nat := 5

/-! ## Data model -/

/-- The `mode` state cell: `"mjpeg"` (Primary), `"fallback"` (Fallback), `"snapshot"`. -/
inductive Mode where
  | mjpeg
  | fallback
  | snapshot
  deriving DecidableEq, Repr

/-- The non-null values of the `errorType` state cell:
`"refused"`, `"404"`, `"server_error"`, `"http_error"`, `"network_error"`. -/
inductive ErrorType where
  | refused
  | notFound
  | serverError
  | httpError
  | networkError
  deriving DecidableEq, Repr

/-- The state cells and ref cells of the component (lines 42-60).  `forceFallback` is the
value computed at line 42 from the configuration and the global flag. -/
structure LiveVideoState where
  forceFallback : Bool
  mode : Mode
  tick : Nat
  errorType : Option ErrorType
  httpErrorCode : Option Nat
  retry : Nat
  isLoading : Bool
  lastFrameTs : Option Nat
  stopped : Bool
  backoff : Nat
  consecutive404s : Nat
  consecutiveErrors : Nat
  deriving DecidableEq, Repr

/-- What `await fetch(snapshotUrl)` followed by `await response.blob()` can produce:
the fetch rejects, or a response arrives with a status code; `blob` is the size of the
body when `response.blob()` resolves and `none` when it rejects (it is only awaited on the
success path). -/
inductive FetchOutcome where
  | networkError
  | response (status : Nat) (blob : Option Nat)
  deriving DecidableEq, Repr

/-- The `response.ok` property of the Fetch API: the status is in the range 200-299. -/
def responseOk (status : Nat) : Bool :=
  decide (200 ≤ status) && decide (status ≤ 299)

/-- JavaScript truthiness of `lastFrameTs` (`null` and `0` are falsy). -/
def truthyTs : Option Nat → Bool
  | none => false
  | some t => decide (t ≠ 0)

/-! ## Mount and the reset effect -/

/-- The configuration value of line 42: `config?.forceFallback || window flag`. -/
def forceFallbackOf (configFlag windowFlag : Bool) : Bool :=
  configFlag || windowFlag

/-- The initial values of the state and ref cells (lines 49-60); `now` is the `Date.now()`
of the lazy initialiser of `tick`. -/
def mount (forceFallback : Bool) (now : Nat) : LiveVideoState :=
  { forceFallback := forceFallback
    mode := if forceFallback then Mode.fallback else Mode.mjpeg
    tick := now
    errorType := none
    httpErrorCode := none
    retry := 0
    isLoading := true
    lastFrameTs := none
    stopped := false
    backoff := SNAPSHOT_INTERVAL_MS
    consecutive404s := 0
    consecutiveErrors := 0 }

/-- The reset effect (lines 72-81), run when `forceFallback` or `backendBase` changes. -/
def resetEffect (forceFallback : Bool) (s : LiveVideoState) : LiveVideoState :=
  { s with
    forceFallback := forceFallback
    mode := if forceFallback then Mode.fallback else Mode.mjpeg
    isLoading := true
    stopped := false
    consecutive404s := 0
    consecutiveErrors := 0
    backoff := SNAPSHOT_INTERVAL_MS
    httpErrorCode := none
    errorType := none }

/-! ## The snapshot poller (lines 83-261) -/

/-- The growth step of the backoff (lines 160-163, 229-232, 394-397). -/
def nextBackoff (backoff : Nat) : Nat :=
  min (backoff * SNAPSHOT_BACKOFF_GROWTH) SNAPSHOT_BACKOFF_MAX_MS

/-- The function `scheduleNextPull` (lines 246-252): `stopped` is the value captured by the
effect, `cancelled` the flag of the effect; the result is the delay of the armed timer. -/
def scheduleNextPull (stopped cancelled : Bool) (s : LiveVideoState) : Option Nat :=
  if stopped || cancelled then none else some s.backoff

/-- The `catch` block of `pullSnapshot` (lines 216-240). -/
def pullSnapshotCatch (stopped cancelled : Bool) (s : LiveVideoState) :
    LiveVideoState × Option Nat :=
  let s1 := { s with consecutiveErrors := s.consecutiveErrors + 1 }
  let s2 := { s1 with errorType := some ErrorType.networkError, httpErrorCode := none }
  let s3 := { s2 with backoff := nextBackoff s2.backoff }
  (s3, scheduleNextPull stopped cancelled s3)

/-- The tail of the non-ok branch of `pullSnapshot` (lines 147-174): classify the status,
grow the backoff, schedule the next cycle. -/
def pullSnapshotFailure (stopped cancelled : Bool) (status : Nat) (s : LiveVideoState) :
    LiveVideoState × Option Nat :=
  let s1 :=
    if status = 404 then
      { s with errorType := some ErrorType.notFound, httpErrorCode := some 404 }
    else if status ≥ 500 then
      { s with errorType := some ErrorType.serverError, httpErrorCode := some status }
    else
      { s with errorType := some ErrorType.httpError, httpErrorCode := some status }
  let s2 := { s1 with backoff := nextBackoff s1.backoff }
  (s2, scheduleNextPull stopped cancelled s2)

/-- The body of `pullSnapshot` after `await fetch` (lines 99-240).  `stopped` and
`cancelled` are the closure variables of the effect at the time the continuation runs,
`now` the value of `Date.now()` at line 203. -/
def pullSnapshotResponse (stopped cancelled : Bool) (now : Nat) (r : FetchOutcome)
    (s : LiveVideoState) : LiveVideoState × Option Nat :=
  match r with
  | FetchOutcome.networkError => pullSnapshotCatch stopped cancelled s
  | FetchOutcome.response status blob =>
    if status = 204 then
      let s1 :=
        if s.consecutive404s > 0 ∨ s.consecutiveErrors > 0 then
          { s with consecutive404s := 0, consecutiveErrors := 0,
                   backoff := SNAPSHOT_INTERVAL_MS }
        else s
      let s2 := { s1 with errorType := none, httpErrorCode := none }
      (s2, scheduleNextPull stopped cancelled s2)
    else if responseOk status = false then
      let s1 := { s with consecutiveErrors := s.consecutiveErrors + 1 }
      if status = 404 then
        let s2 := { s1 with consecutive404s := s1.consecutive404s + 1 }
        if s2.consecutive404s ≥ MAX_CONSECUTIVE_404S then
          ({ s2 with stopped := true, errorType := some ErrorType.notFound,
                     httpErrorCode := some 404 }, none)
        else pullSnapshotFailure stopped cancelled status s2
      else pullSnapshotFailure stopped cancelled status s1
    else
      let s1 := { s with consecutive404s := 0, consecutiveErrors := 0,
                         backoff := SNAPSHOT_INTERVAL_MS,
                         errorType := none, httpErrorCode := none }
      match blob with
      | none => pullSnapshotCatch stopped cancelled s1
      | some size =>
        if size ≤ 130 then (s1, none)
        else
          let s2 := { s1 with lastFrameTs := some now }
          let s3 := if cancelled = false then { s2 with isLoading := false } else s2
          (s3, scheduleNextPull stopped cancelled s3)

/-! ## The staleness watchdog (lines 263-281) -/

/-- The interval callback (lines 268-278): `imgPresent` says whether `imgRef.current` is
set, `now` is `Date.now()`. -/
def staleTick (imgPresent : Bool) (now : Nat) (s : LiveVideoState) : LiveVideoState :=
  if imgPresent = false ∨ truthyTs s.lastFrameTs = false then s
  else
    match s.lastFrameTs with
    | none => s
    | some t =>
      if (now : Int) - (t : Int) > (STALE_THRESHOLD_MS : Int) then
        { s with mode := Mode.snapshot }
      else s

/-! ## The pre-flight probe (lines 283-340) -/

/-- The continuation of the probe (lines 310-329): `cancelled` is the flag of the effect,
`ok` the result of `preflightCheck`, `now` the `Date.now()` of `setTick`. -/
def preflightResult (cancelled ok : Bool) (now : Nat) (s : LiveVideoState) : LiveVideoState :=
  if cancelled then s
  else if ok = false then
    if s.mode = Mode.mjpeg then
      { s with mode := Mode.fallback, isLoading := true,
               errorType := some ErrorType.refused, tick := now }
    else
      { s with mode := Mode.snapshot, isLoading := true,
               errorType := some ErrorType.refused }
  else
    { s with tick := now, errorType := none, httpErrorCode := none }

/-- The guards of the pre-flight effect (lines 299-304): a probe is issued only outside
snapshot mode and not in the forced fallback mode. -/
def preflightActive (s : LiveVideoState) : Bool :=
  if s.forceFallback && decide (s.mode = Mode.fallback) then false
  else if decide (s.mode ≠ Mode.mjpeg) && decide (s.mode ≠ Mode.fallback) then false
  else true

/-! ## The image element handlers (lines 342-398) -/

/-- The handler `handleLoad` (lines 342-370): `img` is the natural width and height of
`imgRef.current`, `none` when the ref is empty.  The second component is the delay of the
timer that bumps `tick` for a placeholder frame. -/
def handleLoad (img : Option (Nat × Nat)) (now : Nat) (s : LiveVideoState) :
    LiveVideoState × Option Nat :=
  match img with
  | some (w, h) =>
    if w ≤ 2 ∨ h ≤ 2 then (s, some 400)
    else
      ({ s with lastFrameTs := some now, isLoading := false, errorType := none,
                httpErrorCode := none, backoff := SNAPSHOT_INTERVAL_MS,
                consecutive404s := 0, consecutiveErrors := 0 }, none)
  | none =>
    ({ s with lastFrameTs := some now, isLoading := false, errorType := none,
              httpErrorCode := none, backoff := SNAPSHOT_INTERVAL_MS,
              consecutive404s := 0, consecutiveErrors := 0 }, none)

/-- The handler `handleError` (lines 372-398).  The second component is the delay of the
timer armed at line 393. -/
def handleError (now : Nat) (s : LiveVideoState) : LiveVideoState × Option Nat :=
  let s1 := { s with isLoading := true, retry := s.retry + 1 }
  if s1.mode = Mode.mjpeg then
    ({ s1 with errorType := some ErrorType.refused, mode := Mode.fallback, tick := now }, none)
  else if s1.mode = Mode.fallback then
    ({ s1 with errorType := some ErrorType.refused, mode := Mode.snapshot }, none)
  else
    ({ s1 with backoff := nextBackoff s1.backoff }, some s1.backoff)

/-- The timer callbacks `() => setTick(Date.now())` (lines 351 and 393). -/
def bumpTick (now : Nat) (s : LiveVideoState) : LiveVideoState :=
  { s with tick := now }

/-! ## Callbacks that run before the re-render

A callback reads the state cells through the closure of the render that created it; a
`setState` call only queues the new value, and the closure keeps the old one until the
component renders again.  The functions below take the captured value as an argument; the
functions `preflightResult`, `handleError` and `staleTick` above are the case where the
captured value is the current one.  Ref cells (`backoffRef`, the two counters) are read
directly and `setRetry` uses the functional form, so these always see the current value. -/

/-- The continuation of the probe (lines 310-329) with the `mode` captured by the effect. -/
def preflightResultAt (mode : Mode) (cancelled ok : Bool) (now : Nat) (s : LiveVideoState) :
    LiveVideoState :=
  if cancelled then s
  else if ok = false then
    if mode = Mode.mjpeg then
      { s with mode := Mode.fallback, isLoading := true,
               errorType := some ErrorType.refused, tick := now }
    else
      { s with mode := Mode.snapshot, isLoading := true,
               errorType := some ErrorType.refused }
  else
    { s with tick := now, errorType := none, httpErrorCode := none }

/-- The handler `handleError` (lines 372-398) with the `mode` captured by its render. -/
def handleErrorAt (mode : Mode) (now : Nat) (s : LiveVideoState) :
    LiveVideoState × Option Nat :=
  let s1 := { s with isLoading := true, retry := s.retry + 1 }
  if mode = Mode.mjpeg then
    ({ s1 with errorType := some ErrorType.refused, mode := Mode.fallback, tick := now }, none)
  else if mode = Mode.fallback then
    ({ s1 with errorType := some ErrorType.refused, mode := Mode.snapshot }, none)
  else
    ({ s1 with backoff := nextBackoff s1.backoff }, some s1.backoff)

/-- The interval callback (lines 268-278) with the `lastFrameTs` captured by the effect. -/
def staleTickAt (lastFrameTs : Option Nat) (imgPresent : Bool) (now : Nat)
    (s : LiveVideoState) : LiveVideoState :=
  if imgPresent = false ∨ truthyTs lastFrameTs = false then s
  else
    match lastFrameTs with
    | none => s
    | some t =>
      if (now : Int) - (t : Int) > (STALE_THRESHOLD_MS : Int) then
        { s with mode := Mode.snapshot }
      else s

/-! ## The controller as a transition system

An event is one callback of the component running to completion.  The guards are the
conditions under which the component installs the callback: the pre-flight probe by
`preflightActive`; `handleLoad` and `handleError` are attached to the image element that is
rendered only when `mode !== "snapshot"` (lines 528-545); the staleness interval exists only
when `mode !== "snapshot"` (line 264); the snapshot poller runs only when
`mode === "snapshot"` and `stopped` is false (lines 84-90), so the `stopped` it captures is
`false`.  A `latePoll` is the continuation of a `pullSnapshot` whose effect has been cleaned
up (`cancelled = true`, line 258) while its fetch was in flight; the code places no check
between `await fetch` and the continuation, so it may run in any later state.
-/

inductive Event where
  | reset (forceFallback : Bool)
  | preflight (ok : Bool) (now : Nat)
  | load (img : Option (Nat × Nat)) (now : Nat)
  | error (now : Nat)
  | staleTick (imgPresent : Bool) (now : Nat)
  | tickTimer (now : Nat)
  | poll (r : FetchOutcome) (now : Nat)
  | latePoll (r : FetchOutcome) (now : Nat)
  deriving DecidableEq, Repr

/-- Is this event a configuration reset? -/
def Event.isReset : Event → Bool
  | Event.reset _ => true
  | _ => false

/-- Is this event the continuation of a cancelled `pullSnapshot`? -/
def Event.isLate : Event → Bool
  | Event.latePoll _ _ => true
  | _ => false

/-- One event of the controller in the state `s` that the component has rendered: every
value a callback captured is the current one.  It is `stepCaptured s s` below; callbacks
that run before the re-render are covered by `stepCaptured` and `runBatches`. -/
def step (s : LiveVideoState) : Event → LiveVideoState
  | Event.reset ff => resetEffect ff s
  | Event.preflight ok now =>
    if preflightActive s then preflightResult false ok now s else s
  | Event.load img now =>
    if s.mode ≠ Mode.snapshot then (handleLoad img now s).1 else s
  | Event.error now =>
    if s.mode ≠ Mode.snapshot then (handleError now s).1 else s
  | Event.staleTick imgPresent now =>
    if s.mode ≠ Mode.snapshot then staleTick imgPresent now s else s
  | Event.tickTimer now => bumpTick now s
  | Event.poll r now =>
    if s.mode = Mode.snapshot ∧ s.stopped = false then
      (pullSnapshotResponse false false now r s).1
    else s
  | Event.latePoll r now => (pullSnapshotResponse false true now r s).1

/-- One event between two renders: `rendered` is the state shown by the last render, whose
values the callbacks captured and which decides which callbacks are installed (the guards
of the effects, the image element with its handlers); `cells` holds the values written
since, which is what the callback updates.  An un-cancelled pre-flight continuation
captured the rendered mode, because a render with another mode runs the cleanup that sets
`cancelled` (lines 332-338). -/
def stepCaptured (rendered cells : LiveVideoState) : Event → LiveVideoState
  | Event.reset ff => resetEffect ff cells
  | Event.preflight ok now =>
    if preflightActive rendered then preflightResultAt rendered.mode false ok now cells
    else cells
  | Event.load img now =>
    if rendered.mode ≠ Mode.snapshot then (handleLoad img now cells).1 else cells
  | Event.error now =>
    if rendered.mode ≠ Mode.snapshot then (handleErrorAt rendered.mode now cells).1 else cells
  | Event.staleTick imgPresent now =>
    if rendered.mode ≠ Mode.snapshot then
      staleTickAt rendered.lastFrameTs imgPresent now cells
    else cells
  | Event.tickTimer now => bumpTick now cells
  | Event.poll r now =>
    if rendered.mode = Mode.snapshot ∧ rendered.stopped = false then
      (pullSnapshotResponse false false now r cells).1
    else cells
  | Event.latePoll r now => (pullSnapshotResponse false true now r cells).1

/-- The callbacks that run between one render and the next, oldest first. -/
def runBatch (rendered : LiveVideoState) (es : List Event) : LiveVideoState :=
  es.foldl (stepCaptured rendered) rendered

/-- A run of the component: each inner list holds the callbacks that run between two
consecutive renders. -/
def runBatches (s : LiveVideoState) (batches : List (List Event)) : LiveVideoState :=
  batches.foldl runBatch s

/-- A sequence of events, oldest first, with a re-render after every event. -/
def run (s : LiveVideoState) (es : List Event) : LiveVideoState :=
  es.foldl step s

/-- The position of a mode in the order Primary < Fallback < Snapshot. -/
def Mode.rank : Mode → Nat
  | Mode.mjpeg => 0
  | Mode.fallback => 1
  | Mode.snapshot => 2

/-- The snapshot poller fed with a list of fetch outcomes, one poll cycle after the other
(each with its `Date.now()`), none of them cancelled. -/
def pollCycles (s : LiveVideoState) (rs : List (FetchOutcome × Nat)) : LiveVideoState :=
  rs.foldl (fun st r => (pullSnapshotResponse false false r.2 r.1 st).1) s

/-- The fetch outcome "HTTP 404". -/
def notFound404 : FetchOutcome := FetchOutcome.response 404 none

/-! ## Predicates and runs used in the statements -/

/-- A success of one poll cycle: a 204 response, or a 2xx response whose body was read. -/
def FetchOutcome.isSuccess : FetchOutcome → Bool
  | FetchOutcome.networkError => false
  | FetchOutcome.response status blob =>
    decide (status = 204) || (responseOk status && blob.isSome)

/-- A poll cycle that fails before the success path: the fetch rejects, or the response is
neither 204 nor 2xx.  A 2xx response whose body read rejects, `FetchOutcome.response status
none` with `responseOk status`, also ends in the catch block but is not covered here. -/
def FetchOutcome.isFailure : FetchOutcome → Bool
  | FetchOutcome.networkError => true
  | FetchOutcome.response status _ => decide (status ≠ 204) && !responseOk status

/-- The backoff stays between the base interval and the maximum, and it is at the base
interval whenever the error counter is zero. -/
def BackoffInv (s : LiveVideoState) : Prop :=
  800 ≤ s.backoff ∧ s.backoff ≤ 10000 ∧ (s.consecutiveErrors = 0 → s.backoff = 800)

/-- The invariant of the data model: a stopped controller is in snapshot mode with
errorType "404" and at least five counted 404 responses. -/
def StoppedInv (s : LiveVideoState) : Prop :=
  s.stopped = true →
    s.mode = Mode.snapshot ∧ s.errorType = some ErrorType.notFound ∧ 5 ≤ s.consecutive404s

/-- A run in which a snapshot fetch is still in flight when the configuration changes, the
controller falls back to snapshot mode again, five 404 responses stop the poller, and the
old fetch then completes with a frame of 1000 bytes. -/
def lateFrameRun : List Event :=
  [ Event.preflight false 1, Event.preflight false 2,
    Event.reset false,
    Event.preflight false 3, Event.preflight false 4,
    Event.poll notFound404 5, Event.poll notFound404 6, Event.poll notFound404 7,
    Event.poll notFound404 8, Event.poll notFound404 9,
    Event.latePoll (FetchOutcome.response 200 (some 1000)) 10 ]

/-- A run of the snapshot poller: four 404 responses, one 500 response, one 404 response. -/
def interruptedRun : List Event :=
  [ Event.preflight false 1, Event.preflight false 2,
    Event.poll notFound404 3, Event.poll notFound404 4, Event.poll notFound404 5,
    Event.poll notFound404 6, Event.poll (FetchOutcome.response 500 none) 7,
    Event.poll notFound404 8 ]

/-- A run in which a frame loads at time 1000, the component renders, and the watchdog
check at time 7001 finds the stream stale. -/
def staleStreamBatches : List (List Event) :=
  [ [Event.load (some (640, 480)) 1000],
    [Event.staleTick true 7001] ]

/-- The run `staleStreamBatches` where the pre-flight probe issued at mount fails right after
the watchdog check, before the component has rendered again. -/
def staleProbeBatches : List (List Event) :=
  [ [Event.load (some (640, 480)) 1000],
    [Event.staleTick true 7001, Event.preflight false 7002] ]

/-- The same events with a re-render between the watchdog check and the probe result. -/
def renderedProbeBatches : List (List Event) :=
  [ [Event.load (some (640, 480)) 1000],
    [Event.staleTick true 7001],
    [Event.preflight false 7002] ]

/-- A run that enters snapshot mode and receives 404, 404 and 500. -/
def threeFailuresRun : List Event :=
  [ Event.preflight false 1, Event.preflight false 2,
    Event.poll (FetchOutcome.response 404 none) 3,
    Event.poll (FetchOutcome.response 404 none) 4,
    Event.poll (FetchOutcome.response 500 none) 5 ]

/-- A run that enters snapshot mode (two failed pre-flight probes). -/
def snapshotEntryRun : List Event :=
  [ Event.preflight false 1, Event.preflight false 2 ]

/-- A run that enters snapshot mode and receives one frame of 1000 bytes. -/
def snapshotFrameRun : List Event :=
  [ Event.preflight false 1, Event.preflight false 2,
    Event.poll (FetchOutcome.response 200 (some 1000)) 3 ]

/-- A run that enters snapshot mode and receives one 500 response. -/
def serverErrorRun : List Event :=
  [ Event.preflight false 1, Event.preflight false 2,
    Event.poll (FetchOutcome.response 500 none) 3 ]

/-- A run in which the stream delivers one frame at time 1000. -/
def oneFrameRun : List Event :=
  [ Event.load (some (640, 480)) 1000 ]

/-- A run that enters snapshot mode, where the first fetch is issued, and then sees the
configuration change while that fetch is in flight. -/
def cancelledFetchRun : List Event :=
  [ Event.preflight false 1, Event.preflight false 2, Event.reset false ]

/-- The run `cancelledFetchRun` continued into snapshot mode again, with four 404 responses
to the new poller. -/
def cancelledFetchThenFour404s : List Event :=
  [ Event.preflight false 1, Event.preflight false 2, Event.reset false,
    Event.preflight false 3, Event.preflight false 4,
    Event.poll notFound404 5, Event.poll notFound404 6, Event.poll notFound404 7,
    Event.poll notFound404 8 ]

/-! ## Endpoint URLs (lines 20-40) -/

/-- The value `mjpegPrimaryUrl` (lines 25-28). -/
def mjpegPrimaryUrl (backendBase : String) : String :=
  BackendUrls.joinUrl backendBase "api/stream/mjpeg"

/-- The value `mjpegFallbackUrl` (lines 29-32). -/
def mjpegFallbackUrl (backendBase : String) : String :=
  BackendUrls.joinUrl backendBase "api/stream/mjpeg"

/-- The value `snapshotUrl` (lines 33-36). -/
def snapshotUrl (backendBase : String) : String :=
  BackendUrls.joinUrl backendBase "api/frame/latest"

/-- The value `detectMetricsUrl` (lines 37-40). -/
def detectMetricsUrl (backendBase : String) : String :=
  BackendUrls.joinUrl backendBase "api/detect/metrics"

/-! ## Basic facts about the callbacks -/

theorem nextBackoff_le (b : Nat) : nextBackoff b ≤ 10000 := by
  unfold nextBackoff SNAPSHOT_BACKOFF_MAX_MS
  exact Nat.min_le_right _ _

theorem nextBackoff_ge (b : Nat) (h : 800 ≤ b) : 800 ≤ nextBackoff b := by
  unfold nextBackoff SNAPSHOT_BACKOFF_MAX_MS SNAPSHOT_BACKOFF_GROWTH
  omega

theorem run_append (s : LiveVideoState) (es fs : List Event) :
    run s (es ++ fs) = run (run s es) fs := by
  simp [run, List.foldl_append]

theorem run_cons (s : LiveVideoState) (e : Event) (es : List Event) :
    run s (e :: es) = run (step s e) es := rfl

theorem pollCycles_append (s : LiveVideoState) (rs ts : List (FetchOutcome × Nat)) :
    pollCycles s (rs ++ ts) = pollCycles (pollCycles s rs) ts := by
  simp [pollCycles, List.foldl_append]

theorem pollCycles_cons (s : LiveVideoState) (r : FetchOutcome × Nat)
    (rs : List (FetchOutcome × Nat)) :
    pollCycles s (r :: rs) = pollCycles (pullSnapshotResponse false false r.2 r.1 s).1 rs := rfl

/-- The continuation of `pullSnapshot` never writes `mode`. -/
theorem pullSnapshotResponse_mode (st c : Bool) (now : Nat) (r : FetchOutcome)
    (s : LiveVideoState) : (pullSnapshotResponse st c now r s).1.mode = s.mode := by
  unfold pullSnapshotResponse pullSnapshotCatch pullSnapshotFailure
  cases r with
  | networkError => rfl
  | response status blob =>
    cases blob <;> simp only [] <;> split_ifs <;> rfl

theorem preflightResult_rank (c ok : Bool) (now : Nat) (s : LiveVideoState) :
    s.mode.rank ≤ (preflightResult c ok now s).mode.rank := by
  unfold preflightResult
  cases hm : s.mode <;> split_ifs <;> simp_all [Mode.rank]

theorem handleLoad_mode (img : Option (Nat × Nat)) (now : Nat) (s : LiveVideoState) :
    (handleLoad img now s).1.mode = s.mode := by
  unfold handleLoad
  split
  · split_ifs <;> rfl
  · rfl

theorem handleError_rank (now : Nat) (s : LiveVideoState) :
    s.mode.rank ≤ (handleError now s).1.mode.rank := by
  unfold handleError
  cases hm : s.mode <;> simp [Mode.rank, hm]

theorem staleTick_rank (img : Bool) (now : Nat) (s : LiveVideoState) :
    s.mode.rank ≤ (staleTick img now s).mode.rank := by
  unfold staleTick
  cases hl : s.lastFrameTs <;> cases hm : s.mode <;> simp only [] <;> split_ifs <;>
    simp_all [Mode.rank]

/-- One event that is not a reset never moves the mode backwards. -/
theorem step_rank_mono (s : LiveVideoState) (e : Event) (he : e.isReset = false) :
    s.mode.rank ≤ (step s e).mode.rank := by
  cases e with
  | reset ff => simp [Event.isReset] at he
  | preflight ok now =>
    simp only [step]
    split
    · exact preflightResult_rank _ _ _ _
    · exact Nat.le_refl _
  | load img now =>
    simp only [step]
    split
    · rw [handleLoad_mode]
    · exact Nat.le_refl _
  | error now =>
    simp only [step]
    split
    · exact handleError_rank _ _
    · exact Nat.le_refl _
  | staleTick img now =>
    simp only [step]
    split
    · exact staleTick_rank _ _ _
    · exact Nat.le_refl _
  | tickTimer now => exact Nat.le_refl _
  | poll r now =>
    simp only [step]
    split
    · rw [pullSnapshotResponse_mode]
    · exact Nat.le_refl _
  | latePoll r now =>
    simp only [step]
    rw [pullSnapshotResponse_mode]

theorem run_rank_mono (es : List Event) :
    ∀ s : LiveVideoState, (∀ e ∈ es, e.isReset = false) → s.mode.rank ≤ (run s es).mode.rank := by
  induction es with
  | nil => intro s _; exact Nat.le_refl _
  | cons e es ih =>
    intro s h
    rw [run_cons]
    exact Nat.le_trans (step_rank_mono s e (h e (List.mem_cons_self _ _)))
      (ih (step s e) (fun x hx => h x (List.mem_cons_of_mem _ hx)))

theorem rank_two (m : Mode) (h : 2 ≤ m.rank) : m = Mode.snapshot := by
  cases m <;> simp [Mode.rank] at h ⊢

/-! ## Pre-flight probe -/

/-- C1: when the result of the pre-flight probe arrives un-cancelled and is not ok, from
mode Primary the next state has mode Fallback, errorType "refused" and isLoading true, and
from mode Fallback it has mode Snapshot, errorType "refused" and isLoading true.  In the
scenario of a configuration without forced fallback the controller starts in Primary and two
failed probes lead through Fallback to Snapshot, each with errorType "refused". -/
theorem preflight_failure_transitions (s : LiveVideoState) (now : Nat) :
    (s.mode = Mode.mjpeg →
      (preflightResult false false now s).mode = Mode.fallback ∧
      (preflightResult false false now s).errorType = some ErrorType.refused ∧
      (preflightResult false false now s).isLoading = true) ∧
    (s.mode = Mode.fallback →
      (preflightResult false false now s).mode = Mode.snapshot ∧
      (preflightResult false false now s).errorType = some ErrorType.refused ∧
      (preflightResult false false now s).isLoading = true) ∧
    (mount (forceFallbackOf false false) now).mode = Mode.mjpeg ∧
    (step (mount (forceFallbackOf false false) now) (Event.preflight false now)).mode
      = Mode.fallback ∧
    (step (mount (forceFallbackOf false false) now) (Event.preflight false now)).errorType
      = some ErrorType.refused ∧
    (run (mount (forceFallbackOf false false) now)
      [Event.preflight false now, Event.preflight false now]).mode = Mode.snapshot ∧
    (run (mount (forceFallbackOf false false) now)
      [Event.preflight false now, Event.preflight false now]).errorType
      = some ErrorType.refused := by
  refine ⟨?_, ?_, ?_, ?_, ?_, ?_, ?_⟩
  · intro h; simp [preflightResult, h]
  · intro h; simp [preflightResult, h]
  all_goals simp [run, step, mount, forceFallbackOf, preflightActive, preflightResult]

/-! ## Mode order -/

/-- With a re-render after every callback (the semantics of `run`): from any state reached
by a history `es`, along every further sequence `fs` of
controller events that contains no configuration reset (pre-flight results, image load,
image error, staleness ticks, timer callbacks, snapshot poll outcomes, also late ones), the
mode never moves backwards in the order Primary < Fallback < Snapshot, and once it is
Snapshot it stays Snapshot. -/
theorem mode_never_moves_backwards (s : LiveVideoState) (es fs : List Event)
    (hfs : ∀ e ∈ fs, e.isReset = false) :
    (run s es).mode.rank ≤ (run s (es ++ fs)).mode.rank ∧
    ((run s es).mode = Mode.snapshot → (run s (es ++ fs)).mode = Mode.snapshot) := by
  have h := run_rank_mono fs (run s es) hfs
  rw [run_append]
  refine ⟨h, fun hsnap => ?_⟩
  rw [hsnap] at h
  exact rank_two _ h

theorem mode_never_moves_backwards_witness :
    (run (mount false 0) [Event.preflight false 1, Event.error 2]).mode.rank
      ≤ (run (mount false 0) ([Event.preflight false 1, Event.error 2]
          ++ [Event.poll notFound404 3, Event.latePoll notFound404 4,
              Event.staleTick true 9000, Event.load (some (640, 480)) 9001])).mode.rank ∧
    ((run (mount false 0) [Event.preflight false 1, Event.error 2]).mode = Mode.snapshot →
      (run (mount false 0) ([Event.preflight false 1, Event.error 2]
          ++ [Event.poll notFound404 3, Event.latePoll notFound404 4,
              Event.staleTick true 9000, Event.load (some (640, 480)) 9001])).mode
        = Mode.snapshot) :=
  mode_never_moves_backwards (mount false 0) [Event.preflight false 1, Event.error 2]
    [Event.poll notFound404 3, Event.latePoll notFound404 4,
     Event.staleTick true 9000, Event.load (some (640, 480)) 9001] (by decide)

/-! ## The 404 cutoff of the snapshot poller -/

/-- The effect of a 404 response on the counters, `stopped` and the schedule. -/
theorem pullSnapshotResponse_404 (st c : Bool) (now : Nat) (blob : Option Nat)
    (s : LiveVideoState) :
    (pullSnapshotResponse st c now (FetchOutcome.response 404 blob) s).1.consecutive404s
      = s.consecutive404s + 1 ∧
    (5 ≤ s.consecutive404s + 1 →
      (pullSnapshotResponse st c now (FetchOutcome.response 404 blob) s).1.stopped = true ∧
      (pullSnapshotResponse st c now (FetchOutcome.response 404 blob) s).1.errorType
        = some ErrorType.notFound ∧
      (pullSnapshotResponse st c now (FetchOutcome.response 404 blob) s).1.httpErrorCode
        = some 404 ∧
      (pullSnapshotResponse st c now (FetchOutcome.response 404 blob) s).2 = none) ∧
    (s.consecutive404s + 1 < 5 →
      (pullSnapshotResponse st c now (FetchOutcome.response 404 blob) s).1.stopped = s.stopped ∧
      (pullSnapshotResponse st c now (FetchOutcome.response 404 blob) s).2
        = scheduleNextPull st c
            (pullSnapshotResponse st c now (FetchOutcome.response 404 blob) s).1) := by
  unfold pullSnapshotResponse pullSnapshotFailure MAX_CONSECUTIVE_404S
  simp only [responseOk]
  by_cases h : 5 ≤ s.consecutive404s + 1
  · simp [h]
  · simp [h, scheduleNextPull]

theorem pullSnapshotResponse_notFound404 (st c : Bool) (now : Nat) (s : LiveVideoState) :
    (pullSnapshotResponse st c now notFound404 s).1.consecutive404s
      = s.consecutive404s + 1 ∧
    (5 ≤ s.consecutive404s + 1 →
      (pullSnapshotResponse st c now notFound404 s).1.stopped = true ∧
      (pullSnapshotResponse st c now notFound404 s).1.errorType = some ErrorType.notFound ∧
      (pullSnapshotResponse st c now notFound404 s).1.httpErrorCode = some 404 ∧
      (pullSnapshotResponse st c now notFound404 s).2 = none) ∧
    (s.consecutive404s + 1 < 5 →
      (pullSnapshotResponse st c now notFound404 s).1.stopped = s.stopped ∧
      (pullSnapshotResponse st c now notFound404 s).2
        = scheduleNextPull st c (pullSnapshotResponse st c now notFound404 s).1) :=
  pullSnapshotResponse_404 st c now none s

theorem pollCycles_404_prefix (now : Nat) (k : Nat) :
    ∀ s : LiveVideoState, s.consecutive404s + k < 5 →
      (pollCycles s (List.replicate k (notFound404, now))).consecutive404s
        = s.consecutive404s + k ∧
      (pollCycles s (List.replicate k (notFound404, now))).stopped = s.stopped := by
  induction k with
  | zero => intro s _; exact ⟨rfl, rfl⟩
  | succ k ih =>
    intro s h
    rw [List.replicate_succ, pollCycles_cons]
    have h404 := pullSnapshotResponse_notFound404 false false now s
    have hlt : s.consecutive404s + 1 < 5 := by omega
    have hstep := ih (pullSnapshotResponse false false now notFound404 s).1
      (by rw [h404.1]; omega)
    refine ⟨?_, ?_⟩
    · rw [hstep.1, h404.1]; omega
    · rw [hstep.2, (h404.2.2 hlt).1]

/-- C3: in `pullSnapshot`, a 404 response in a state with `consecutive404s = n` sets the
count to `n + 1`; when `n + 1 >= 5` it sets `stopped`, errorType "404" and httpErrorCode 404
and schedules no further fetch.  Starting from a non-stopped state with a zero count, each
of the first four 404 responses in a row leaves the poller running with the next poll
scheduled, and the fifth one ends in the stopped state with no next poll scheduled. -/
theorem pullSnapshot_404_cutoff (s : LiveVideoState) (now : Nat) (blob : Option Nat) :
    (pullSnapshotResponse false false now (FetchOutcome.response 404 blob) s).1.consecutive404s
      = s.consecutive404s + 1 ∧
    (5 ≤ s.consecutive404s + 1 →
      (pullSnapshotResponse false false now (FetchOutcome.response 404 blob) s).1.stopped = true ∧
      (pullSnapshotResponse false false now (FetchOutcome.response 404 blob) s).1.errorType
        = some ErrorType.notFound ∧
      (pullSnapshotResponse false false now (FetchOutcome.response 404 blob) s).1.httpErrorCode
        = some 404 ∧
      (pullSnapshotResponse false false now (FetchOutcome.response 404 blob) s).2 = none) ∧
    (s.consecutive404s = 0 → s.stopped = false →
      (∀ k, k < 4 →
        (pollCycles s (List.replicate (k + 1) (notFound404, now))).stopped = false ∧
        (pullSnapshotResponse false false now notFound404
          (pollCycles s (List.replicate k (notFound404, now)))).2 ≠ none) ∧
      (pollCycles s (List.replicate 5 (notFound404, now))).stopped = true ∧
      (pollCycles s (List.replicate 5 (notFound404, now))).errorType
        = some ErrorType.notFound ∧
      (pollCycles s (List.replicate 5 (notFound404, now))).httpErrorCode = some 404 ∧
      (pollCycles s (List.replicate 5 (notFound404, now))).consecutive404s = 5 ∧
      (pullSnapshotResponse false false now notFound404
        (pollCycles s (List.replicate 4 (notFound404, now)))).2 = none) := by
  have h1 := pullSnapshotResponse_404 false false now blob s
  refine ⟨h1.1, h1.2.1, ?_⟩
  intro h0 hst
  have h4 := pollCycles_404_prefix now 4 s (by omega)
  have h5 := pullSnapshotResponse_notFound404 false false now
    (pollCycles s (List.replicate 4 (notFound404, now)))
  have hge : 5 ≤ (pollCycles s (List.replicate 4 (notFound404, now))).consecutive404s + 1 := by
    rw [h4.1]; omega
  have hrun : pollCycles s (List.replicate 5 (notFound404, now))
      = (pullSnapshotResponse false false now notFound404
          (pollCycles s (List.replicate 4 (notFound404, now)))).1 := by
    rw [show (5 : Nat) = 4 + 1 from rfl, List.replicate_succ', pollCycles_append]
    rfl
  refine ⟨?_, ?_, ?_, ?_, ?_, ?_⟩
  · intro k hk
    have hk1 := pollCycles_404_prefix now (k + 1) s (by omega)
    have hk0 := pollCycles_404_prefix now k s (by omega)
    have hr := pullSnapshotResponse_notFound404 false false now
      (pollCycles s (List.replicate k (notFound404, now)))
    refine ⟨by rw [hk1.2, hst], ?_⟩
    have hlt : (pollCycles s (List.replicate k (notFound404, now))).consecutive404s + 1 < 5 := by
      rw [hk0.1]; omega
    rw [(hr.2.2 hlt).2]
    simp [scheduleNextPull]
  · rw [hrun]; exact (h5.2.1 hge).1
  · rw [hrun]; exact (h5.2.1 hge).2.1
  · rw [hrun]; exact (h5.2.1 hge).2.2.1
  · rw [hrun, h5.1, h4.1, h0]
  · exact (h5.2.1 hge).2.2.2

/-! ## Invariants of the backoff -/

theorem nextBackoff_base : nextBackoff 800 = 1600 := by decide

theorem mount_inv (ff : Bool) (now : Nat) : BackoffInv (mount ff now) := by
  simp [BackoffInv, mount, SNAPSHOT_INTERVAL_MS]

theorem resetEffect_inv (ff : Bool) (s : LiveVideoState) : BackoffInv (resetEffect ff s) := by
  simp [BackoffInv, resetEffect, SNAPSHOT_INTERVAL_MS]

theorem pullSnapshotResponse_inv (st c : Bool) (now : Nat) (r : FetchOutcome)
    (s : LiveVideoState) (h : BackoffInv s) :
    BackoffInv (pullSnapshotResponse st c now r s).1 := by
  obtain ⟨h1, h2, h3⟩ := h
  have hn := nextBackoff_le s.backoff
  have hg := nextBackoff_ge s.backoff h1
  unfold pullSnapshotResponse pullSnapshotCatch pullSnapshotFailure BackoffInv
  cases r with
  | networkError => simp [hn, hg]
  | response status blob =>
    cases blob <;> simp only [] <;> split_ifs <;>
      simp_all [SNAPSHOT_INTERVAL_MS, nextBackoff_base]

theorem handleLoad_inv (img : Option (Nat × Nat)) (now : Nat) (s : LiveVideoState)
    (h : BackoffInv s) : BackoffInv (handleLoad img now s).1 := by
  unfold handleLoad BackoffInv
  split
  · split_ifs
    · exact h
    · simp [SNAPSHOT_INTERVAL_MS]
  · simp [SNAPSHOT_INTERVAL_MS]

theorem handleError_inv (now : Nat) (s : LiveVideoState) (hm : s.mode ≠ Mode.snapshot)
    (h : BackoffInv s) : BackoffInv (handleError now s).1 := by
  unfold handleError BackoffInv
  cases hmode : s.mode
  · simpa [hmode] using h
  · simpa [hmode] using h
  · exact absurd hmode hm

theorem staleTick_inv (img : Bool) (now : Nat) (s : LiveVideoState) (h : BackoffInv s) :
    BackoffInv (staleTick img now s) := by
  unfold staleTick
  cases hl : s.lastFrameTs <;> simp only [] <;> split_ifs <;> exact h

theorem preflightResult_inv (c ok : Bool) (now : Nat) (s : LiveVideoState)
    (h : BackoffInv s) : BackoffInv (preflightResult c ok now s) := by
  unfold preflightResult
  split_ifs <;> exact h

theorem step_inv (s : LiveVideoState) (e : Event) (h : BackoffInv s) :
    BackoffInv (step s e) := by
  cases e with
  | reset ff => exact resetEffect_inv ff s
  | preflight ok now =>
    simp only [step]
    split
    · exact preflightResult_inv _ _ _ _ h
    · exact h
  | load img now =>
    simp only [step]
    split
    · exact handleLoad_inv _ _ _ h
    · exact h
  | error now =>
    simp only [step]
    split
    · rename_i hm
      exact handleError_inv _ _ hm h
    · exact h
  | staleTick img now =>
    simp only [step]
    split
    · exact staleTick_inv _ _ _ h
    · exact h
  | tickTimer now => exact h
  | poll r now =>
    simp only [step]
    split
    · exact pullSnapshotResponse_inv _ _ _ _ _ h
    · exact h
  | latePoll r now => exact pullSnapshotResponse_inv _ _ _ _ _ h

theorem run_inv (es : List Event) :
    ∀ s : LiveVideoState, BackoffInv s → BackoffInv (run s es) := by
  induction es with
  | nil => intro s h; exact h
  | cons e es ih => intro s h; exact ih (step s e) (step_inv s e h)

/-- C7: in every state reachable from mount, immediately after the snapshot poller handles a
success (a 204 response, or a 2xx response whose body was read), the backoff equals the base
interval 800 ms, both consecutive counters are 0 and errorType is null. -/
theorem poll_success_resets (ff : Bool) (now0 : Nat) (es : List Event) (st c : Bool)
    (now : Nat) (r : FetchOutcome) (hr : r.isSuccess = true) :
    (pullSnapshotResponse st c now r (run (mount ff now0) es)).1.backoff = 800 ∧
    (pullSnapshotResponse st c now r (run (mount ff now0) es)).1.consecutiveErrors = 0 ∧
    (pullSnapshotResponse st c now r (run (mount ff now0) es)).1.consecutive404s = 0 ∧
    (pullSnapshotResponse st c now r (run (mount ff now0) es)).1.errorType = none := by
  obtain ⟨_, _, h3⟩ := run_inv es (mount ff now0) (mount_inv ff now0)
  generalize run (mount ff now0) es = s at h3
  unfold pullSnapshotResponse
  cases r with
  | networkError => simp [FetchOutcome.isSuccess] at hr
  | response status blob =>
    cases blob with
    | none =>
      have h204 : status = 204 := by simpa [FetchOutcome.isSuccess] using hr
      subst h204
      by_cases hc : s.consecutive404s > 0 ∨ s.consecutiveErrors > 0
      · simp [hc, SNAPSHOT_INTERVAL_MS]
      · have hz : s.consecutive404s = 0 ∧ s.consecutiveErrors = 0 := by omega
        simp [hz.1, hz.2, h3 hz.2]
    | some size =>
      by_cases h204 : status = 204
      · subst h204
        by_cases hc : s.consecutive404s > 0 ∨ s.consecutiveErrors > 0
        · simp [hc, SNAPSHOT_INTERVAL_MS]
        · have hz : s.consecutive404s = 0 ∧ s.consecutiveErrors = 0 := by omega
          simp [hz.1, hz.2, h3 hz.2]
      · have hok : responseOk status = true := by
          simpa [FetchOutcome.isSuccess, h204] using hr
        simp only [h204, hok, if_false, Bool.true_eq_false]
        split_ifs <;> simp [SNAPSHOT_INTERVAL_MS, scheduleNextPull]

theorem poll_success_resets_witness :
    (pullSnapshotResponse false false 9 (FetchOutcome.response 204 none)
      (run (mount false 0) [Event.preflight false 1, Event.preflight false 2,
        Event.poll FetchOutcome.networkError 3])).1.backoff = 800 ∧
    (pullSnapshotResponse false false 9 (FetchOutcome.response 204 none)
      (run (mount false 0) [Event.preflight false 1, Event.preflight false 2,
        Event.poll FetchOutcome.networkError 3])).1.consecutiveErrors = 0 ∧
    (pullSnapshotResponse false false 9 (FetchOutcome.response 204 none)
      (run (mount false 0) [Event.preflight false 1, Event.preflight false 2,
        Event.poll FetchOutcome.networkError 3])).1.consecutive404s = 0 ∧
    (pullSnapshotResponse false false 9 (FetchOutcome.response 204 none)
      (run (mount false 0) [Event.preflight false 1, Event.preflight false 2,
        Event.poll FetchOutcome.networkError 3])).1.errorType = none :=
  poll_success_resets false 0 [Event.preflight false 1, Event.preflight false 2,
    Event.poll FetchOutcome.networkError 3] false false 9 (FetchOutcome.response 204 none)
    (by decide)

/-- C8: in every state reachable from mount through any sequence of controller events
(resets and late poll responses included), `800 <= backoff <= 10000`. -/
theorem backoff_bounds (ff : Bool) (now0 : Nat) (es : List Event) :
    800 ≤ (run (mount ff now0) es).backoff ∧ (run (mount ff now0) es).backoff ≤ 10000 :=
  ⟨(run_inv es (mount ff now0) (mount_inv ff now0)).1,
   (run_inv es (mount ff now0) (mount_inv ff now0)).2.1⟩

/-! ## The `stopped` flag -/

/-- The live poller keeps the invariant: it sets `stopped` only together with errorType
"404" and a count of at least five. -/
theorem pullSnapshotResponse_live_stoppedInv (now : Nat) (r : FetchOutcome)
    (s : LiveVideoState) (hm : s.mode = Mode.snapshot) (hs : s.stopped = false) :
    StoppedInv (pullSnapshotResponse false false now r s).1 := by
  unfold StoppedInv pullSnapshotResponse pullSnapshotCatch pullSnapshotFailure
    MAX_CONSECUTIVE_404S
  cases r with
  | networkError => simp [hs]
  | response status blob =>
    cases blob <;> simp only [] <;> split_ifs <;> simp_all

theorem step_stoppedInv (s : LiveVideoState) (e : Event) (he : e.isLate = false)
    (h : StoppedInv s) : StoppedInv (step s e) := by
  cases e with
  | reset ff => simp [StoppedInv, step, resetEffect]
  | preflight ok now =>
    simp only [step]
    split
    · rename_i ha
      have hns : s.stopped = false := by
        cases hst : s.stopped
        · rfl
        · have hsnap := (h hst).1
          simp [preflightActive, hsnap] at ha
      unfold StoppedInv preflightResult
      split_ifs <;> simp [hns]
    · exact h
  | load img now =>
    simp only [step]
    split
    · rename_i hm
      have hns : s.stopped = false := by
        cases hst : s.stopped
        · rfl
        · exact absurd (h hst).1 hm
      unfold StoppedInv handleLoad
      split
      · split_ifs <;> simp [hns]
      · simp [hns]
    · exact h
  | error now =>
    simp only [step]
    split
    · rename_i hm
      have hns : s.stopped = false := by
        cases hst : s.stopped
        · rfl
        · exact absurd (h hst).1 hm
      unfold StoppedInv handleError
      simp only []
      split_ifs <;> simp [hns]
    · exact h
  | staleTick img now =>
    simp only [step]
    split
    · rename_i hm
      have hns : s.stopped = false := by
        cases hst : s.stopped
        · rfl
        · exact absurd (h hst).1 hm
      unfold StoppedInv staleTick
      cases hl : s.lastFrameTs <;> simp only [] <;> split_ifs <;> simp [hns]
    · exact h
  | tickTimer now => exact h
  | poll r now =>
    simp only [step]
    split
    · rename_i hc
      exact pullSnapshotResponse_live_stoppedInv now r s hc.1 hc.2
    · exact h
  | latePoll r now => simp [Event.isLate] at he

/-- Without late poll responses the invariant of `stopped` holds in every reachable state. -/
theorem stoppedInv_without_late_responses (ff : Bool) (now0 : Nat) (es : List Event)
    (hes : ∀ e ∈ es, e.isLate = false) : StoppedInv (run (mount ff now0) es) := by
  have key : ∀ (es : List Event) (s : LiveVideoState),
      (∀ e ∈ es, e.isLate = false) → StoppedInv s → StoppedInv (run s es) := by
    intro es
    induction es with
    | nil => intro s _ h; exact h
    | cons e es ih =>
      intro s hl h
      exact ih (step s e) (fun x hx => hl x (List.mem_cons_of_mem _ hx))
        (step_stoppedInv s e (hl e (List.mem_cons_self _ _)) h)
  exact key es (mount ff now0) hes (by simp [StoppedInv, mount])

/-- C4 (the code breaks it): after `lateFrameRun` the controller is stopped although
errorType is null and the 404 counter is 0: the continuation of a cancelled `pullSnapshot`
resets the counters and the error without looking at `cancelled`. -/
theorem stopped_invariant_broken_by_late_response :
    (run (mount false 0) lateFrameRun).stopped = true ∧
    (run (mount false 0) lateFrameRun).mode = Mode.snapshot ∧
    (run (mount false 0) lateFrameRun).errorType = none ∧
    (run (mount false 0) lateFrameRun).consecutive404s = 0 ∧
    (run (mount false 0) (lateFrameRun.take 10)).stopped = true ∧
    (run (mount false 0) (lateFrameRun.take 10)).errorType = some ErrorType.notFound ∧
    (run (mount false 0) (lateFrameRun.take 10)).consecutive404s = 5 := by
  decide

/-- C5 (the code breaks it): in `interruptedRun` the poller is not stopped after the 500
response and is stopped by the 404 response that follows it, although the five most recent
outcomes are 404, 404, 404, 500, 404: the 404 counter is not reset by the 500 response. -/
theorem stopped_after_interrupted_404s :
    (run (mount false 0) (interruptedRun.take 7)).stopped = false ∧
    (run (mount false 0) (interruptedRun.take 7)).consecutive404s = 4 ∧
    (run (mount false 0) interruptedRun).stopped = true ∧
    (run (mount false 0) interruptedRun).consecutive404s = 5 ∧
    (run (mount false 0) interruptedRun).consecutiveErrors = 6 ∧
    interruptedRun.drop 3 =
      [ Event.poll notFound404 4, Event.poll notFound404 5, Event.poll notFound404 6,
        Event.poll (FetchOutcome.response 500 none) 7, Event.poll notFound404 8 ] := by
  decide

/-! ## Growth of the backoff -/

/-- The poller never clears `stopped`. -/
theorem pullSnapshotResponse_stopped (st c : Bool) (now : Nat) (r : FetchOutcome)
    (s : LiveVideoState) (h : s.stopped = true) :
    (pullSnapshotResponse st c now r s).1.stopped = true := by
  unfold pullSnapshotResponse pullSnapshotCatch pullSnapshotFailure
  cases r with
  | networkError => simpa using h
  | response status blob =>
    cases blob <;> simp only [] <;> split_ifs <;> simp_all

theorem pollCycles_stopped (rs : List (FetchOutcome × Nat)) :
    ∀ s : LiveVideoState, s.stopped = true → (pollCycles s rs).stopped = true := by
  induction rs with
  | nil => intro s h; exact h
  | cons r rs ih =>
    intro s h
    rw [pollCycles_cons]
    exact ih _ (pullSnapshotResponse_stopped _ _ _ _ _ h)

/-- A failed cycle that does not halt the poller grows the backoff by one step. -/
theorem pullSnapshotResponse_failure_backoff (st c : Bool) (now : Nat) (r : FetchOutcome)
    (s : LiveVideoState) (hr : r.isFailure = true)
    (hs : (pullSnapshotResponse st c now r s).1.stopped = false) :
    (pullSnapshotResponse st c now r s).1.backoff = nextBackoff s.backoff := by
  revert hs
  unfold pullSnapshotResponse pullSnapshotCatch pullSnapshotFailure
  cases r with
  | networkError => simp
  | response status blob =>
    have h204 : status ≠ 204 := by
      intro h; simp [FetchOutcome.isFailure, h] at hr
    have hok : responseOk status = false := by
      simpa [FetchOutcome.isFailure, h204] using hr
    simp only [h204, hok, if_false, if_true]
    split_ifs <;> simp

theorem nextBackoff_pow (j : Nat) :
    nextBackoff (min (800 * 2 ^ j) 10000) = min (800 * 2 ^ (j + 1)) 10000 := by
  have hp : 800 * 2 ^ (j + 1) = 2 * (800 * 2 ^ j) := by rw [pow_succ]; ring
  unfold nextBackoff SNAPSHOT_BACKOFF_GROWTH SNAPSHOT_BACKOFF_MAX_MS
  rw [hp]
  omega

theorem pollCycles_failures_backoff (rs : List (FetchOutcome × Nat)) :
    ∀ (s : LiveVideoState) (j : Nat), s.backoff = min (800 * 2 ^ j) 10000 →
      (∀ r ∈ rs, r.1.isFailure = true) → (pollCycles s rs).stopped = false →
      (pollCycles s rs).backoff = min (800 * 2 ^ (j + rs.length)) 10000 := by
  induction rs with
  | nil => intro s j hb _ _; simpa [pollCycles] using hb
  | cons r rs ih =>
    intro s j hb hf hst
    rw [pollCycles_cons] at hst ⊢
    have hst1 : (pullSnapshotResponse false false r.2 r.1 s).1.stopped = false := by
      cases h : (pullSnapshotResponse false false r.2 r.1 s).1.stopped
      · rfl
      · rw [pollCycles_stopped rs _ h] at hst
        exact absurd hst (by decide)
    have hb1 := pullSnapshotResponse_failure_backoff false false r.2 r.1 s
      (hf r (List.mem_cons_self _ _)) hst1
    rw [hb, nextBackoff_pow] at hb1
    have := ih _ (j + 1) hb1 (fun x hx => hf x (List.mem_cons_of_mem _ hx)) hst
    rw [this, List.length_cons]
    congr 3
    omega

/-- A 2xx response other than 204 whose body read rejects: the success reset of lines
185-189 has run when `response.blob()` throws, and the catch block (lines 216-239) then
counts one error, sets "network_error" and grows the backoff from the base interval. -/
theorem pullSnapshotResponse_body_rejected (st c : Bool) (now status : Nat)
    (s : LiveVideoState) (hok : responseOk status = true) (h204 : status ≠ 204) :
    pullSnapshotResponse st c now (FetchOutcome.response status none) s
      = ({ s with consecutive404s := 0, consecutiveErrors := 1, backoff := 1600,
                  errorType := some ErrorType.networkError, httpErrorCode := none },
         if (st || c) = true then none else some 1600) := by
  unfold pullSnapshotResponse pullSnapshotCatch scheduleNextPull
  simp [hok, h204, SNAPSHOT_INTERVAL_MS, nextBackoff_base]

/-- C6, as the code has it: starting from the base interval 800 ms, after `k` consecutive
failed poll cycles, each a non-2xx response that does not halt the poller or a rejected
fetch, the backoff equals `min (800 * 2^k) 10000`; it is therefore non-decreasing along such
failures and never above 10000 ms.  A 2xx response whose body read rejects is handled by the
same catch block after the success reset and leaves the backoff at 1600 ms, whatever it was
before. -/
theorem backoff_after_consecutive_failures (s : LiveVideoState)
    (rs ts : List (FetchOutcome × Nat)) (hb : s.backoff = 800)
    (hfail : ∀ r ∈ rs ++ ts, r.1.isFailure = true)
    (hrun : (pollCycles s (rs ++ ts)).stopped = false) :
    (pollCycles s rs).backoff = min (800 * 2 ^ rs.length) 10000 ∧
    (pollCycles s (rs ++ ts)).backoff = min (800 * 2 ^ (rs.length + ts.length)) 10000 ∧
    (pollCycles s rs).backoff ≤ (pollCycles s (rs ++ ts)).backoff ∧
    (pollCycles s (rs ++ ts)).backoff ≤ 10000 ∧
    (∀ (st c : Bool) (now status : Nat) (s0 : LiveVideoState),
      responseOk status = true → status ≠ 204 →
      (pullSnapshotResponse st c now (FetchOutcome.response status none) s0).1.backoff
        = 1600) := by
  have hrs : (pollCycles s rs).stopped = false := by
    cases h : (pollCycles s rs).stopped
    · rfl
    · rw [pollCycles_append, pollCycles_stopped ts _ h] at hrun
      exact absurd hrun (by decide)
  have h1 := pollCycles_failures_backoff rs s 0 (by simpa using hb)
    (fun r hr => hfail r (List.mem_append_left ts hr)) hrs
  have h2 := pollCycles_failures_backoff (rs ++ ts) s 0 (by simpa using hb) hfail hrun
  simp only [Nat.zero_add, List.length_append] at h1 h2
  refine ⟨h1, h2, ?_, ?_, ?_⟩
  · rw [h1, h2]
    have hle : 800 * 2 ^ rs.length ≤ 800 * 2 ^ (rs.length + ts.length) :=
      Nat.mul_le_mul_left _ (Nat.pow_le_pow_right (by decide) (Nat.le_add_right _ _))
    omega
  · rw [h2]; omega
  · intro st c now status s0 hok h204
    rw [pullSnapshotResponse_body_rejected st c now status s0 hok h204]

theorem backoff_after_consecutive_failures_witness :
    (pollCycles (mount false 0)
      [(FetchOutcome.response 500 none, 1), (notFound404, 2)]).backoff
        = min (800 * 2 ^ [(FetchOutcome.response 500 none, 1), (notFound404, 2)].length) 10000 ∧
    (pollCycles (mount false 0)
      ([(FetchOutcome.response 500 none, 1), (notFound404, 2)] ++
        [(FetchOutcome.networkError, 3), (FetchOutcome.response 403 none, 4)])).backoff
        = min (800 * 2 ^ ([(FetchOutcome.response 500 none, 1), (notFound404, 2)].length +
            [(FetchOutcome.networkError, 3), (FetchOutcome.response 403 none, 4)].length)) 10000 ∧
    (pollCycles (mount false 0)
      [(FetchOutcome.response 500 none, 1), (notFound404, 2)]).backoff
      ≤ (pollCycles (mount false 0)
          ([(FetchOutcome.response 500 none, 1), (notFound404, 2)] ++
            [(FetchOutcome.networkError, 3), (FetchOutcome.response 403 none, 4)])).backoff ∧
    (pollCycles (mount false 0)
      ([(FetchOutcome.response 500 none, 1), (notFound404, 2)] ++
        [(FetchOutcome.networkError, 3), (FetchOutcome.response 403 none, 4)])).backoff
      ≤ 10000 ∧
    (∀ (st c : Bool) (now status : Nat) (s0 : LiveVideoState),
      responseOk status = true → status ≠ 204 →
      (pullSnapshotResponse st c now (FetchOutcome.response status none) s0).1.backoff
        = 1600) :=
  backoff_after_consecutive_failures (mount false 0)
    [(FetchOutcome.response 500 none, 1), (notFound404, 2)]
    [(FetchOutcome.networkError, 3), (FetchOutcome.response 403 none, 4)]
    (by decide) (by decide) (by decide)

/-- C6 as stated fails: in snapshot mode after mount, the failed cycles 500, 500 and a 200
response whose body read rejects (a network exception handled by the catch block) leave the
backoff at 1600, 3200 and 1600: after three consecutive failures it is not
`min (800 * 2^3) 10000 = 6400`, and it has decreased. -/
theorem backoff_drops_after_rejected_body :
    (pollCycles (run (mount false 0) snapshotEntryRun)
      [(FetchOutcome.response 500 none, 3)]).backoff = 1600 ∧
    (pollCycles (run (mount false 0) snapshotEntryRun)
      [(FetchOutcome.response 500 none, 3), (FetchOutcome.response 500 none, 4)]).backoff
      = 3200 ∧
    (pollCycles (run (mount false 0) snapshotEntryRun)
      [(FetchOutcome.response 500 none, 3), (FetchOutcome.response 500 none, 4),
       (FetchOutcome.response 200 none, 5)]).backoff = 1600 ∧
    (pollCycles (run (mount false 0) snapshotEntryRun)
      [(FetchOutcome.response 500 none, 3), (FetchOutcome.response 500 none, 4),
       (FetchOutcome.response 200 none, 5)]).backoff ≠ min (800 * 2 ^ 3) 10000 ∧
    (pollCycles (run (mount false 0) snapshotEntryRun)
      [(FetchOutcome.response 500 none, 3), (FetchOutcome.response 500 none, 4),
       (FetchOutcome.response 200 none, 5)]).errorType = some ErrorType.networkError ∧
    (pollCycles (run (mount false 0) snapshotEntryRun)
      [(FetchOutcome.response 500 none, 3), (FetchOutcome.response 500 none, 4),
       (FetchOutcome.response 200 none, 5)]).stopped = false := by
  decide

/-! ## The staleness watchdog -/

/-- The watchdog callback when the image element is present and a frame time is set. -/
theorem staleTick_of_frame (s : LiveVideoState) (t now : Nat)
    (hts : s.lastFrameTs = some t) (ht : t ≠ 0) :
    staleTick true now s
      = if (now : Int) - (t : Int) > 6000 then { s with mode := Mode.snapshot } else s := by
  unfold staleTick STALE_THRESHOLD_MS
  simp [hts, truthyTs, ht]

/-- C9: for every state with mode other than snapshot, the image element present and
`lastFrameTs` set to `t` (a `Date.now()` value, hence truthy), a check at time `now` changes
the mode to snapshot if and only if `now - t > 6000`, so a difference of exactly 6000 ms
does not trigger; this holds from Primary and from Fallback alike, and no field other than
`mode` changes. -/
theorem staleTick_threshold (s : LiveVideoState) (t now : Nat)
    (hm : s.mode ≠ Mode.snapshot) (hts : s.lastFrameTs = some t) (ht : t ≠ 0) :
    ((staleTick true now s).mode = Mode.snapshot ↔ (now : Int) - (t : Int) > 6000) ∧
    ((now : Int) - (t : Int) = 6000 → staleTick true now s = s) ∧
    staleTick true now s = { s with mode := (staleTick true now s).mode } := by
  rw [staleTick_of_frame s t now hts ht]
  by_cases h : (now : Int) - (t : Int) > 6000
  · rw [if_pos h]
    refine ⟨⟨fun _ => h, fun _ => rfl⟩, ?_, rfl⟩
    intro h6
    omega
  · rw [if_neg h]
    refine ⟨⟨fun hs => absurd hs hm, fun h6 => absurd h6 h⟩, fun _ => rfl, ?_⟩
    cases s
    rfl

theorem staleTick_threshold_witness :
    ((staleTick true 7000 { mount true 0 with lastFrameTs := some 1000 }).mode = Mode.snapshot
      ↔ ((7000 : Nat) : Int) - ((1000 : Nat) : Int) > 6000) ∧
    (((7000 : Nat) : Int) - ((1000 : Nat) : Int) = 6000 →
      staleTick true 7000 { mount true 0 with lastFrameTs := some 1000 }
        = { mount true 0 with lastFrameTs := some 1000 }) ∧
    staleTick true 7000 { mount true 0 with lastFrameTs := some 1000 }
      = { ({ mount true 0 with lastFrameTs := some 1000 } : LiveVideoState) with
          mode := (staleTick true 7000 { mount true 0 with lastFrameTs := some 1000 }).mode } :=
  staleTick_threshold { mount true 0 with lastFrameTs := some 1000 } 1000 7000
    (by decide) rfl (by decide)

/-- C10, as the code has it: outside snapshot mode, once a frame has arrived (`lastFrameTs`
is set to `t`) and the image element is present, a watchdog check made more than 6000 ms
after that frame moves the controller to snapshot mode without any load-error event; while
no frame has arrived (`lastFrameTs` is null) a watchdog check changes nothing, whatever the
time. -/
theorem staleTick_needs_a_frame (s : LiveVideoState) (t now : Nat)
    (hm : s.mode ≠ Mode.snapshot) (ht : t ≠ 0) (hold : (now : Int) - (t : Int) > 6000) :
    (step { s with lastFrameTs := some t } (Event.staleTick true now)).mode = Mode.snapshot ∧
    (∀ (imgPresent : Bool) (later : Nat),
      step { s with lastFrameTs := none } (Event.staleTick imgPresent later)
        = { s with lastFrameTs := none }) := by
  refine ⟨?_, ?_⟩
  · have hm1 : ({ s with lastFrameTs := some t } : LiveVideoState).mode ≠ Mode.snapshot := hm
    simp only [step, if_pos hm1]
    rw [staleTick_of_frame { s with lastFrameTs := some t } t now rfl ht, if_pos hold]
  · intro img later
    simp [step, hm, staleTick, truthyTs]

theorem staleTick_needs_a_frame_witness :
    (step { mount true 0 with lastFrameTs := some 1000 } (Event.staleTick true 7001)).mode
      = Mode.snapshot ∧
    (∀ (imgPresent : Bool) (later : Nat),
      step { mount true 0 with lastFrameTs := none } (Event.staleTick imgPresent later)
        = { mount true 0 with lastFrameTs := none }) :=
  staleTick_needs_a_frame (mount true 0) 1000 7001 (by decide) (by decide) (by decide)

/-- C10 as stated fails: from mount, with no frame ever arrived, the watchdog checks at
2 s, 4 s, 6 s, 8 s and 1000 s leave the controller in Primary mode. -/
theorem staleTick_never_fires_without_frame :
    (mount false 0).lastFrameTs = none ∧
    (run (mount false 0)
      [Event.staleTick true 2000, Event.staleTick true 4000, Event.staleTick true 6000,
       Event.staleTick true 8000, Event.staleTick true 1000000]).mode = Mode.mjpeg := by
  decide

/-! ## The image element handlers -/

/-- C11: for every state, a load event whose image has naturalWidth > 2 and
naturalHeight > 2 yields lastFrameTs = now, isLoading = false, errorType null,
httpErrorCode null, backoff 800 and both consecutive counters 0, with the mode (and every
other cell) unchanged, and arms no timer. -/
theorem handleLoad_real_frame (s : LiveVideoState) (w h now : Nat)
    (hw : 2 < w) (hh : 2 < h) :
    (handleLoad (some (w, h)) now s).1.lastFrameTs = some now ∧
    (handleLoad (some (w, h)) now s).1.isLoading = false ∧
    (handleLoad (some (w, h)) now s).1.errorType = none ∧
    (handleLoad (some (w, h)) now s).1.httpErrorCode = none ∧
    (handleLoad (some (w, h)) now s).1.backoff = 800 ∧
    (handleLoad (some (w, h)) now s).1.consecutive404s = 0 ∧
    (handleLoad (some (w, h)) now s).1.consecutiveErrors = 0 ∧
    (handleLoad (some (w, h)) now s).1.mode = s.mode ∧
    handleLoad (some (w, h)) now s
      = ({ s with lastFrameTs := some now, isLoading := false, errorType := none,
                  httpErrorCode := none, backoff := 800,
                  consecutive404s := 0, consecutiveErrors := 0 }, none) := by
  have hne : ¬ (w ≤ 2 ∨ h ≤ 2) := by omega
  simp [handleLoad, hne, SNAPSHOT_INTERVAL_MS]

theorem handleLoad_real_frame_witness :
    (handleLoad (some (640, 480)) 5000 (mount false 0)).1.lastFrameTs = some 5000 ∧
    (handleLoad (some (640, 480)) 5000 (mount false 0)).1.isLoading = false ∧
    (handleLoad (some (640, 480)) 5000 (mount false 0)).1.errorType = none ∧
    (handleLoad (some (640, 480)) 5000 (mount false 0)).1.httpErrorCode = none ∧
    (handleLoad (some (640, 480)) 5000 (mount false 0)).1.backoff = 800 ∧
    (handleLoad (some (640, 480)) 5000 (mount false 0)).1.consecutive404s = 0 ∧
    (handleLoad (some (640, 480)) 5000 (mount false 0)).1.consecutiveErrors = 0 ∧
    (handleLoad (some (640, 480)) 5000 (mount false 0)).1.mode = (mount false 0).mode ∧
    handleLoad (some (640, 480)) 5000 (mount false 0)
      = ({ (mount false 0) with
            lastFrameTs := some 5000, isLoading := false, errorType := none,
            httpErrorCode := none, backoff := 800,
            consecutive404s := 0, consecutiveErrors := 0 }, none) :=
  handleLoad_real_frame (mount false 0) 640 480 5000 (by decide) (by decide)

/-- C12: for every state, a load event whose image has naturalWidth <= 2 or
naturalHeight <= 2 leaves the whole state unchanged (mode, lastFrameTs, isLoading,
errorType, both counters, backoff); its only effect is the timer of 400 ms whose callback
bumps the cache-busting token `tick`. -/
theorem handleLoad_placeholder (s : LiveVideoState) (w h now : Nat)
    (hsmall : w ≤ 2 ∨ h ≤ 2) :
    handleLoad (some (w, h)) now s = (s, some 400) ∧
    (∀ later : Nat, bumpTick later (handleLoad (some (w, h)) now s).1
      = { s with tick := later }) := by
  have h1 : handleLoad (some (w, h)) now s = (s, some 400) := by
    simp [handleLoad, hsmall]
  exact ⟨h1, fun later => by rw [h1]; rfl⟩

theorem handleLoad_placeholder_witness :
    handleLoad (some (1, 1)) 5000 (mount false 0) = (mount false 0, some 400) ∧
    (∀ later : Nat, bumpTick later (handleLoad (some (1, 1)) 5000 (mount false 0)).1
      = { mount false 0 with tick := later }) :=
  handleLoad_placeholder (mount false 0) 1 1 5000 (by decide)

/-- C13: for every state, a load error in Primary or Fallback increments the retry counter
by exactly one and sets isLoading = true; from Primary it sets errorType "refused" and mode
Fallback, from Fallback errorType "refused" and mode Snapshot; in both cases the two
consecutive counters and the backoff are unchanged and no timer is armed. -/
theorem handleError_outside_snapshot (s : LiveVideoState) (now : Nat)
    (hm : s.mode ≠ Mode.snapshot) :
    (handleError now s).1.retry = s.retry + 1 ∧
    (handleError now s).1.isLoading = true ∧
    (handleError now s).1.errorType = some ErrorType.refused ∧
    (s.mode = Mode.mjpeg → (handleError now s).1.mode = Mode.fallback) ∧
    (s.mode = Mode.fallback → (handleError now s).1.mode = Mode.snapshot) ∧
    (handleError now s).1.consecutive404s = s.consecutive404s ∧
    (handleError now s).1.consecutiveErrors = s.consecutiveErrors ∧
    (handleError now s).1.backoff = s.backoff ∧
    (handleError now s).2 = none := by
  unfold handleError
  cases hmode : s.mode
  · simp [hmode]
  · simp [hmode]
  · exact absurd hmode hm

theorem handleError_outside_snapshot_witness :
    (handleError 7 (mount true 0)).1.retry = (mount true 0).retry + 1 ∧
    (handleError 7 (mount true 0)).1.isLoading = true ∧
    (handleError 7 (mount true 0)).1.errorType = some ErrorType.refused ∧
    ((mount true 0).mode = Mode.mjpeg → (handleError 7 (mount true 0)).1.mode = Mode.fallback) ∧
    ((mount true 0).mode = Mode.fallback →
      (handleError 7 (mount true 0)).1.mode = Mode.snapshot) ∧
    (handleError 7 (mount true 0)).1.consecutive404s = (mount true 0).consecutive404s ∧
    (handleError 7 (mount true 0)).1.consecutiveErrors = (mount true 0).consecutiveErrors ∧
    (handleError 7 (mount true 0)).1.backoff = (mount true 0).backoff ∧
    (handleError 7 (mount true 0)).2 = none :=
  handleError_outside_snapshot (mount true 0) 7 (by decide)

/-- The last branch of `handleError` (lines 393-397), which the component never runs because
the image element of snapshot mode (lines 546-559) has no `onError`: called with mode
snapshot, `handleError` leaves mode, errorType,
httpErrorCode, both consecutive counters, lastFrameTs and stopped unchanged, but it sets
isLoading = true, increments the retry counter, arms a timer with the current backoff and
grows the backoff to `min (2 * backoff) 10000`. -/
theorem handleError_in_snapshot (s : LiveVideoState) (now : Nat)
    (hm : s.mode = Mode.snapshot) :
    handleError now s
      = ({ s with isLoading := true, retry := s.retry + 1, backoff := nextBackoff s.backoff },
         some s.backoff) ∧
    (handleError now s).1.mode = Mode.snapshot ∧
    (handleError now s).1.errorType = s.errorType ∧
    (handleError now s).1.httpErrorCode = s.httpErrorCode ∧
    (handleError now s).1.consecutive404s = s.consecutive404s ∧
    (handleError now s).1.consecutiveErrors = s.consecutiveErrors ∧
    (handleError now s).1.lastFrameTs = s.lastFrameTs ∧
    (handleError now s).1.stopped = s.stopped ∧
    (handleError now s).1.backoff = min (2 * s.backoff) 10000 := by
  unfold handleError
  simp [hm, nextBackoff, SNAPSHOT_BACKOFF_GROWTH, SNAPSHOT_BACKOFF_MAX_MS, Nat.mul_comm]

theorem handleError_in_snapshot_witness :
    handleError 4 (run (mount false 0) snapshotFrameRun)
      = ({ run (mount false 0) snapshotFrameRun with
            isLoading := true, retry := (run (mount false 0) snapshotFrameRun).retry + 1,
            backoff := nextBackoff (run (mount false 0) snapshotFrameRun).backoff },
         some (run (mount false 0) snapshotFrameRun).backoff) ∧
    (handleError 4 (run (mount false 0) snapshotFrameRun)).1.mode = Mode.snapshot ∧
    (handleError 4 (run (mount false 0) snapshotFrameRun)).1.errorType
      = (run (mount false 0) snapshotFrameRun).errorType ∧
    (handleError 4 (run (mount false 0) snapshotFrameRun)).1.httpErrorCode
      = (run (mount false 0) snapshotFrameRun).httpErrorCode ∧
    (handleError 4 (run (mount false 0) snapshotFrameRun)).1.consecutive404s
      = (run (mount false 0) snapshotFrameRun).consecutive404s ∧
    (handleError 4 (run (mount false 0) snapshotFrameRun)).1.consecutiveErrors
      = (run (mount false 0) snapshotFrameRun).consecutiveErrors ∧
    (handleError 4 (run (mount false 0) snapshotFrameRun)).1.lastFrameTs
      = (run (mount false 0) snapshotFrameRun).lastFrameTs ∧
    (handleError 4 (run (mount false 0) snapshotFrameRun)).1.stopped
      = (run (mount false 0) snapshotFrameRun).stopped ∧
    (handleError 4 (run (mount false 0) snapshotFrameRun)).1.backoff
      = min (2 * (run (mount false 0) snapshotFrameRun).backoff) 10000 :=
  handleError_in_snapshot (run (mount false 0) snapshotFrameRun) 4 (by decide)

/-- The last branch of `handleError` is not the identity, were it ever called: in the
snapshot state reached by `snapshotFrameRun` (isLoading
false, backoff 800, retry 0) `handleError` sets isLoading to true, retry to 1 and the
backoff to 1600. -/
theorem handleError_in_snapshot_not_noop :
    (run (mount false 0) snapshotFrameRun).mode = Mode.snapshot ∧
    (run (mount false 0) snapshotFrameRun).isLoading = false ∧
    (run (mount false 0) snapshotFrameRun).backoff = 800 ∧
    (run (mount false 0) snapshotFrameRun).retry = 0 ∧
    (handleError 4 (run (mount false 0) snapshotFrameRun)).1.isLoading = true ∧
    (handleError 4 (run (mount false 0) snapshotFrameRun)).1.backoff = 1600 ∧
    (handleError 4 (run (mount false 0) snapshotFrameRun)).1.retry = 1 ∧
    (handleError 4 (run (mount false 0) snapshotFrameRun)).1
      ≠ run (mount false 0) snapshotFrameRun := by
  decide

/-! ## The 2xx path of the snapshot poller -/

/-- The state after the reset that `pullSnapshot` performs on every 2xx response other than
204 (lines 185-189). -/
theorem pullSnapshotResponse_small_frame (st c : Bool) (now status size : Nat)
    (s : LiveVideoState) (hok : responseOk status = true) (h204 : status ≠ 204)
    (hsize : size ≤ 130) :
    pullSnapshotResponse st c now (FetchOutcome.response status (some size)) s
      = ({ s with consecutive404s := 0, consecutiveErrors := 0, backoff := 800,
                  errorType := none, httpErrorCode := none }, none) := by
  unfold pullSnapshotResponse
  simp [hok, h204, hsize, SNAPSHOT_INTERVAL_MS]

theorem pullSnapshotResponse_large_frame (st c : Bool) (now status size : Nat)
    (s : LiveVideoState) (hok : responseOk status = true) (h204 : status ≠ 204)
    (hsize : 130 < size) :
    (pullSnapshotResponse st c now (FetchOutcome.response status (some size)) s).1.lastFrameTs
      = some now ∧
    (c = false →
      (pullSnapshotResponse st c now (FetchOutcome.response status (some size)) s).1.isLoading
        = false) := by
  have hns : ¬ size ≤ 130 := by omega
  unfold pullSnapshotResponse
  cases c <;> simp [hok, h204, hns]

/-- C15, as the code has it: for every 2xx (non-204) snapshot response, a body of 130 bytes
or fewer is discarded with lastFrameTs and isLoading left unchanged, and a body of more than
130 bytes is accepted, setting lastFrameTs = now and, when the poller has not been
cancelled, isLoading = false.  A 100-byte body does not update lastFrameTs, a 1000-byte body
does. -/
theorem snapshot_frame_size_guard (s : LiveVideoState) (st c : Bool) (now status : Nat)
    (hok : responseOk status = true) (h204 : status ≠ 204) :
    (∀ size : Nat, size ≤ 130 →
      (pullSnapshotResponse st c now (FetchOutcome.response status (some size)) s).1.lastFrameTs
        = s.lastFrameTs ∧
      (pullSnapshotResponse st c now (FetchOutcome.response status (some size)) s).1.isLoading
        = s.isLoading) ∧
    (∀ size : Nat, 130 < size →
      (pullSnapshotResponse st c now (FetchOutcome.response status (some size)) s).1.lastFrameTs
        = some now ∧
      (c = false →
        (pullSnapshotResponse st c now
          (FetchOutcome.response status (some size)) s).1.isLoading = false)) ∧
    (pullSnapshotResponse st c now (FetchOutcome.response status (some 100)) s).1.lastFrameTs
      = s.lastFrameTs ∧
    (pullSnapshotResponse st c now (FetchOutcome.response status (some 1000)) s).1.lastFrameTs
      = some now := by
  refine ⟨?_, ?_, ?_, ?_⟩
  · intro size hsize
    rw [pullSnapshotResponse_small_frame st c now status size s hok h204 hsize]
    exact ⟨rfl, rfl⟩
  · intro size hsize
    exact pullSnapshotResponse_large_frame st c now status size s hok h204 hsize
  · rw [pullSnapshotResponse_small_frame st c now status 100 s hok h204 (by decide)]
  · exact (pullSnapshotResponse_large_frame st c now status 1000 s hok h204 (by decide)).1

theorem snapshot_frame_size_guard_witness :
    (∀ size : Nat, size ≤ 130 →
      (pullSnapshotResponse false false 9 (FetchOutcome.response 200 (some size))
        (run (mount false 0) snapshotEntryRun)).1.lastFrameTs
        = (run (mount false 0) snapshotEntryRun).lastFrameTs ∧
      (pullSnapshotResponse false false 9 (FetchOutcome.response 200 (some size))
        (run (mount false 0) snapshotEntryRun)).1.isLoading
        = (run (mount false 0) snapshotEntryRun).isLoading) ∧
    (∀ size : Nat, 130 < size →
      (pullSnapshotResponse false false 9 (FetchOutcome.response 200 (some size))
        (run (mount false 0) snapshotEntryRun)).1.lastFrameTs = some 9 ∧
      (false = false →
        (pullSnapshotResponse false false 9 (FetchOutcome.response 200 (some size))
          (run (mount false 0) snapshotEntryRun)).1.isLoading = false)) ∧
    (pullSnapshotResponse false false 9 (FetchOutcome.response 200 (some 100))
      (run (mount false 0) snapshotEntryRun)).1.lastFrameTs
      = (run (mount false 0) snapshotEntryRun).lastFrameTs ∧
    (pullSnapshotResponse false false 9 (FetchOutcome.response 200 (some 1000))
      (run (mount false 0) snapshotEntryRun)).1.lastFrameTs = some 9 :=
  snapshot_frame_size_guard (run (mount false 0) snapshotEntryRun) false false 9 200
    (by decide) (by decide)

/-- C15 as stated fails: a 200 response with a body of exactly 130 bytes is discarded; in
the snapshot state reached by `snapshotEntryRun` lastFrameTs stays null and isLoading stays
true, while a body of 131 bytes is accepted. -/
theorem frame_of_130_bytes_discarded :
    (run (mount false 0) snapshotEntryRun).mode = Mode.snapshot ∧
    (run (mount false 0) snapshotEntryRun).lastFrameTs = none ∧
    (pullSnapshotResponse false false 9 (FetchOutcome.response 200 (some 130))
      (run (mount false 0) snapshotEntryRun)).1.lastFrameTs = none ∧
    (pullSnapshotResponse false false 9 (FetchOutcome.response 200 (some 130))
      (run (mount false 0) snapshotEntryRun)).1.isLoading = true ∧
    (pullSnapshotResponse false false 9 (FetchOutcome.response 200 (some 131))
      (run (mount false 0) snapshotEntryRun)).1.lastFrameTs = some 9 := by
  decide

/-- C16 (the code breaks it): in the non-stopped snapshot state reached by
`snapshotEntryRun`, the live poller that receives a 200 response with a 100-byte body arms
no timer for the next poll (the size check returns before `scheduleNextPull`), while a 204
response and a 200 response with a 1000-byte body both schedule the next poll after
800 ms. -/
theorem small_frame_schedules_nothing :
    (run (mount false 0) snapshotEntryRun).mode = Mode.snapshot ∧
    (run (mount false 0) snapshotEntryRun).stopped = false ∧
    (pullSnapshotResponse false false 9 (FetchOutcome.response 200 (some 100))
      (run (mount false 0) snapshotEntryRun)).2 = none ∧
    (pullSnapshotResponse false false 9 (FetchOutcome.response 200 (some 100))
      (run (mount false 0) snapshotEntryRun)).1.stopped = false ∧
    (pullSnapshotResponse false false 9 (FetchOutcome.response 204 none)
      (run (mount false 0) snapshotEntryRun)).2 = some 800 ∧
    (pullSnapshotResponse false false 9 (FetchOutcome.response 200 (some 1000))
      (run (mount false 0) snapshotEntryRun)).2 = some 800 := by
  decide

/-- C17, as the code has it: handling an undersized 2xx frame (130 bytes or fewer, status
other than 204) resets the backoff to 800, both consecutive counters to 0, errorType and
httpErrorCode to null, like every 2xx response, and leaves lastFrameTs, isLoading, mode and
stopped as they were. -/
theorem small_frame_resets_error_state (s : LiveVideoState) (st c : Bool)
    (now status size : Nat) (hok : responseOk status = true) (h204 : status ≠ 204)
    (hsize : size ≤ 130) :
    (pullSnapshotResponse st c now (FetchOutcome.response status (some size)) s).1.backoff
      = 800 ∧
    (pullSnapshotResponse st c now
      (FetchOutcome.response status (some size)) s).1.consecutiveErrors = 0 ∧
    (pullSnapshotResponse st c now
      (FetchOutcome.response status (some size)) s).1.consecutive404s = 0 ∧
    (pullSnapshotResponse st c now (FetchOutcome.response status (some size)) s).1.errorType
      = none ∧
    (pullSnapshotResponse st c now
      (FetchOutcome.response status (some size)) s).1.httpErrorCode = none ∧
    (pullSnapshotResponse st c now (FetchOutcome.response status (some size)) s).1.lastFrameTs
      = s.lastFrameTs ∧
    (pullSnapshotResponse st c now (FetchOutcome.response status (some size)) s).1.isLoading
      = s.isLoading ∧
    (pullSnapshotResponse st c now (FetchOutcome.response status (some size)) s).1.mode
      = s.mode ∧
    (pullSnapshotResponse st c now (FetchOutcome.response status (some size)) s).1.stopped
      = s.stopped := by
  rw [pullSnapshotResponse_small_frame st c now status size s hok h204 hsize]
  exact ⟨rfl, rfl, rfl, rfl, rfl, rfl, rfl, rfl, rfl⟩

theorem small_frame_resets_error_state_witness :
    (pullSnapshotResponse false false 9 (FetchOutcome.response 200 (some 100))
      (run (mount false 0) serverErrorRun)).1.backoff = 800 ∧
    (pullSnapshotResponse false false 9 (FetchOutcome.response 200 (some 100))
      (run (mount false 0) serverErrorRun)).1.consecutiveErrors = 0 ∧
    (pullSnapshotResponse false false 9 (FetchOutcome.response 200 (some 100))
      (run (mount false 0) serverErrorRun)).1.consecutive404s = 0 ∧
    (pullSnapshotResponse false false 9 (FetchOutcome.response 200 (some 100))
      (run (mount false 0) serverErrorRun)).1.errorType = none ∧
    (pullSnapshotResponse false false 9 (FetchOutcome.response 200 (some 100))
      (run (mount false 0) serverErrorRun)).1.httpErrorCode = none ∧
    (pullSnapshotResponse false false 9 (FetchOutcome.response 200 (some 100))
      (run (mount false 0) serverErrorRun)).1.lastFrameTs
      = (run (mount false 0) serverErrorRun).lastFrameTs ∧
    (pullSnapshotResponse false false 9 (FetchOutcome.response 200 (some 100))
      (run (mount false 0) serverErrorRun)).1.isLoading
      = (run (mount false 0) serverErrorRun).isLoading ∧
    (pullSnapshotResponse false false 9 (FetchOutcome.response 200 (some 100))
      (run (mount false 0) serverErrorRun)).1.mode
      = (run (mount false 0) serverErrorRun).mode ∧
    (pullSnapshotResponse false false 9 (FetchOutcome.response 200 (some 100))
      (run (mount false 0) serverErrorRun)).1.stopped
      = (run (mount false 0) serverErrorRun).stopped :=
  small_frame_resets_error_state (run (mount false 0) serverErrorRun) false false 9 200 100
    (by decide) (by decide) (by decide)

/-- C17 as stated fails: in the snapshot state reached by `serverErrorRun` (backoff 1600,
one counted error, errorType "server_error", httpErrorCode 500) a 200 response with a
100-byte body sets the backoff to 800, the error counter to 0 and errorType and
httpErrorCode to null. -/
theorem small_frame_not_silent :
    (run (mount false 0) serverErrorRun).mode = Mode.snapshot ∧
    (run (mount false 0) serverErrorRun).backoff = 1600 ∧
    (run (mount false 0) serverErrorRun).consecutiveErrors = 1 ∧
    (run (mount false 0) serverErrorRun).errorType = some ErrorType.serverError ∧
    (run (mount false 0) serverErrorRun).httpErrorCode = some 500 ∧
    (pullSnapshotResponse false false 9 (FetchOutcome.response 200 (some 100))
      (run (mount false 0) serverErrorRun)).1.backoff = 800 ∧
    (pullSnapshotResponse false false 9 (FetchOutcome.response 200 (some 100))
      (run (mount false 0) serverErrorRun)).1.consecutiveErrors = 0 ∧
    (pullSnapshotResponse false false 9 (FetchOutcome.response 200 (some 100))
      (run (mount false 0) serverErrorRun)).1.errorType = none ∧
    (pullSnapshotResponse false false 9 (FetchOutcome.response 200 (some 100))
      (run (mount false 0) serverErrorRun)).1.httpErrorCode = none := by
  decide

/-! ## Failure classification of the snapshot poller -/

/-- C18, as the code has it: a 2xx response whose body read rejects is classified
"network_error" with httpErrorCode null and schedules the next cycle, but after the success
reset, so it ends with the error counter at 1 and the 404 counter at 0.  For every other
failed poll of the live poller (a non-2xx status or a rejected fetch) that does not halt
it, the error counter increases by exactly one and the next cycle is scheduled after the new
backoff; a status `s` gives errorType "404" with httpErrorCode 404 when `s = 404`,
"server_error" with httpErrorCode `s` when `s >= 500`, and "http_error" with httpErrorCode
`s` otherwise; a rejected fetch gives errorType "network_error" with httpErrorCode null and
leaves the 404 counter unchanged. -/
theorem snapshot_failure_classification (s : LiveVideoState) (now : Nat) (r : FetchOutcome)
    (hr : r.isFailure = true)
    (hs : (pullSnapshotResponse false false now r s).1.stopped = false) :
    (∀ (now0 status : Nat) (s0 : LiveVideoState),
      responseOk status = true → status ≠ 204 →
      (pullSnapshotResponse false false now0
        (FetchOutcome.response status none) s0).1.errorType = some ErrorType.networkError ∧
      (pullSnapshotResponse false false now0
        (FetchOutcome.response status none) s0).1.httpErrorCode = none ∧
      (pullSnapshotResponse false false now0
        (FetchOutcome.response status none) s0).1.consecutiveErrors = 1 ∧
      (pullSnapshotResponse false false now0
        (FetchOutcome.response status none) s0).1.consecutive404s = 0 ∧
      (pullSnapshotResponse false false now0
        (FetchOutcome.response status none) s0).2
        = some (pullSnapshotResponse false false now0
            (FetchOutcome.response status none) s0).1.backoff) ∧
    (pullSnapshotResponse false false now r s).1.consecutiveErrors
      = s.consecutiveErrors + 1 ∧
    (pullSnapshotResponse false false now r s).2
      = some (pullSnapshotResponse false false now r s).1.backoff ∧
    (∀ (status : Nat) (blob : Option Nat), r = FetchOutcome.response status blob →
      (status = 404 →
        (pullSnapshotResponse false false now r s).1.errorType = some ErrorType.notFound ∧
        (pullSnapshotResponse false false now r s).1.httpErrorCode = some 404) ∧
      (status ≠ 404 → 500 ≤ status →
        (pullSnapshotResponse false false now r s).1.errorType = some ErrorType.serverError ∧
        (pullSnapshotResponse false false now r s).1.httpErrorCode = some status) ∧
      (status ≠ 404 → status < 500 →
        (pullSnapshotResponse false false now r s).1.errorType = some ErrorType.httpError ∧
        (pullSnapshotResponse false false now r s).1.httpErrorCode = some status)) ∧
    (r = FetchOutcome.networkError →
      (pullSnapshotResponse false false now r s).1.errorType = some ErrorType.networkError ∧
      (pullSnapshotResponse false false now r s).1.httpErrorCode = none ∧
      (pullSnapshotResponse false false now r s).1.consecutive404s = s.consecutive404s) := by
  refine ⟨?_, ?_⟩
  · intro now0 status s0 hok h204
    rw [pullSnapshotResponse_body_rejected false false now0 status s0 hok h204]
    exact ⟨rfl, rfl, rfl, rfl, rfl⟩
  cases r with
  | networkError =>
    simp [pullSnapshotResponse, pullSnapshotCatch, scheduleNextPull]
  | response status blob =>
    have h204 : status ≠ 204 := by
      intro h; simp [FetchOutcome.isFailure, h] at hr
    have hok : responseOk status = false := by
      simpa [FetchOutcome.isFailure, h204] using hr
    revert hs
    unfold pullSnapshotResponse pullSnapshotFailure MAX_CONSECUTIVE_404S
    simp only [h204, hok, if_false, if_true]
    by_cases h404 : status = 404
    · subst h404
      by_cases hc : s.consecutive404s + 1 ≥ 5
      · simp [hc]
      · simp [hc, scheduleNextPull]
    · by_cases h5 : 500 ≤ status
      · simp [h404, h5, scheduleNextPull]
      · simp [h404, h5, scheduleNextPull]
        omega

theorem snapshot_failure_classification_witness :
    (∀ (now0 status : Nat) (s0 : LiveVideoState),
      responseOk status = true → status ≠ 204 →
      (pullSnapshotResponse false false now0
        (FetchOutcome.response status none) s0).1.errorType = some ErrorType.networkError ∧
      (pullSnapshotResponse false false now0
        (FetchOutcome.response status none) s0).1.httpErrorCode = none ∧
      (pullSnapshotResponse false false now0
        (FetchOutcome.response status none) s0).1.consecutiveErrors = 1 ∧
      (pullSnapshotResponse false false now0
        (FetchOutcome.response status none) s0).1.consecutive404s = 0 ∧
      (pullSnapshotResponse false false now0
        (FetchOutcome.response status none) s0).2
        = some (pullSnapshotResponse false false now0
            (FetchOutcome.response status none) s0).1.backoff) ∧
    (pullSnapshotResponse false false 9 (FetchOutcome.response 503 none)
      (run (mount false 0) snapshotEntryRun)).1.consecutiveErrors
      = (run (mount false 0) snapshotEntryRun).consecutiveErrors + 1 ∧
    (pullSnapshotResponse false false 9 (FetchOutcome.response 503 none)
      (run (mount false 0) snapshotEntryRun)).2
      = some (pullSnapshotResponse false false 9 (FetchOutcome.response 503 none)
          (run (mount false 0) snapshotEntryRun)).1.backoff ∧
    (∀ (status : Nat) (blob : Option Nat),
      FetchOutcome.response 503 none = FetchOutcome.response status blob →
      (status = 404 →
        (pullSnapshotResponse false false 9 (FetchOutcome.response 503 none)
          (run (mount false 0) snapshotEntryRun)).1.errorType = some ErrorType.notFound ∧
        (pullSnapshotResponse false false 9 (FetchOutcome.response 503 none)
          (run (mount false 0) snapshotEntryRun)).1.httpErrorCode = some 404) ∧
      (status ≠ 404 → 500 ≤ status →
        (pullSnapshotResponse false false 9 (FetchOutcome.response 503 none)
          (run (mount false 0) snapshotEntryRun)).1.errorType = some ErrorType.serverError ∧
        (pullSnapshotResponse false false 9 (FetchOutcome.response 503 none)
          (run (mount false 0) snapshotEntryRun)).1.httpErrorCode = some status) ∧
      (status ≠ 404 → status < 500 →
        (pullSnapshotResponse false false 9 (FetchOutcome.response 503 none)
          (run (mount false 0) snapshotEntryRun)).1.errorType = some ErrorType.httpError ∧
        (pullSnapshotResponse false false 9 (FetchOutcome.response 503 none)
          (run (mount false 0) snapshotEntryRun)).1.httpErrorCode = some status)) ∧
    (FetchOutcome.response 503 none = FetchOutcome.networkError →
      (pullSnapshotResponse false false 9 (FetchOutcome.response 503 none)
        (run (mount false 0) snapshotEntryRun)).1.errorType = some ErrorType.networkError ∧
      (pullSnapshotResponse false false 9 (FetchOutcome.response 503 none)
        (run (mount false 0) snapshotEntryRun)).1.httpErrorCode = none ∧
      (pullSnapshotResponse false false 9 (FetchOutcome.response 503 none)
        (run (mount false 0) snapshotEntryRun)).1.consecutive404s
        = (run (mount false 0) snapshotEntryRun).consecutive404s) :=
  snapshot_failure_classification (run (mount false 0) snapshotEntryRun) 9
    (FetchOutcome.response 503 none) (by decide) (by decide)

/-- C18 as stated fails: in the snapshot state reached by `threeFailuresRun` (three counted
errors, two counted 404s) a 200 response whose body read rejects is a failed poll that does
not halt the poller and is classified "network_error", yet the error counter goes from 3 to
1 and the 404 counter from 2 to 0. -/
theorem rejected_body_resets_counters :
    (run (mount false 0) threeFailuresRun).mode = Mode.snapshot ∧
    (run (mount false 0) threeFailuresRun).consecutiveErrors = 3 ∧
    (run (mount false 0) threeFailuresRun).consecutive404s = 2 ∧
    (pullSnapshotResponse false false 9 (FetchOutcome.response 200 none)
      (run (mount false 0) threeFailuresRun)).1.errorType = some ErrorType.networkError ∧
    (pullSnapshotResponse false false 9 (FetchOutcome.response 200 none)
      (run (mount false 0) threeFailuresRun)).1.httpErrorCode = none ∧
    (pullSnapshotResponse false false 9 (FetchOutcome.response 200 none)
      (run (mount false 0) threeFailuresRun)).1.stopped = false ∧
    (pullSnapshotResponse false false 9 (FetchOutcome.response 200 none)
      (run (mount false 0) threeFailuresRun)).1.consecutiveErrors = 1 ∧
    (pullSnapshotResponse false false 9 (FetchOutcome.response 200 none)
      (run (mount false 0) threeFailuresRun)).1.consecutive404s = 0 ∧
    (pullSnapshotResponse false false 9 (FetchOutcome.response 200 none)
      (run (mount false 0) threeFailuresRun)).2 = some 1600 := by
  decide

/-! ## The reset effect and late responses -/

/-- C19 (the code breaks it): the reset effect gives every cell the value of a fresh mount
except `lastFrameTs` and `retry` (and the token `tick`), which keep their values.  After
`oneFrameRun` a reset leaves lastFrameTs at 1000 where a fresh mount has null, and the first
watchdog check at time 8000 then moves the reset controller to snapshot mode, which it does
not do after a fresh mount. -/
theorem reset_keeps_lastFrameTs :
    (∀ (ff : Bool) (s : LiveVideoState),
      resetEffect ff s
        = { (mount ff s.tick) with lastFrameTs := s.lastFrameTs, retry := s.retry }) ∧
    (run (mount false 0) oneFrameRun).lastFrameTs = some 1000 ∧
    (resetEffect true (run (mount false 0) oneFrameRun)).lastFrameTs = some 1000 ∧
    (mount true 0).lastFrameTs = none ∧
    (step (resetEffect true (run (mount false 0) oneFrameRun))
      (Event.staleTick true 8000)).mode = Mode.snapshot ∧
    (step (mount true 0) (Event.staleTick true 8000)).mode = Mode.fallback := by
  refine ⟨fun ff s => rfl, ?_, ?_, ?_, ?_, ?_⟩ <;> decide

/-- C20 (the code breaks it): the continuation of a cancelled `pullSnapshot`
(`cancelled = true`) writes the state.  After `cancelledFetchRun` (mode Primary, counters 0,
backoff 800, no error) a late 404 response sets errorType "404", httpErrorCode 404, both
counters to 1 and the backoff to 1600, and a late 200 response with 1000 bytes sets
lastFrameTs; after `cancelledFetchThenFour404s` a late 404 response sets `stopped`.  Only
isLoading is protected, and no new poll is scheduled. -/
theorem late_response_mutates_state :
    (run (mount false 0) cancelledFetchRun).mode = Mode.mjpeg ∧
    (run (mount false 0) cancelledFetchRun).errorType = none ∧
    (run (mount false 0) cancelledFetchRun).httpErrorCode = none ∧
    (run (mount false 0) cancelledFetchRun).consecutive404s = 0 ∧
    (run (mount false 0) cancelledFetchRun).consecutiveErrors = 0 ∧
    (run (mount false 0) cancelledFetchRun).backoff = 800 ∧
    (run (mount false 0) cancelledFetchRun).lastFrameTs = none ∧
    (pullSnapshotResponse false true 9 notFound404
      (run (mount false 0) cancelledFetchRun)).1.errorType = some ErrorType.notFound ∧
    (pullSnapshotResponse false true 9 notFound404
      (run (mount false 0) cancelledFetchRun)).1.httpErrorCode = some 404 ∧
    (pullSnapshotResponse false true 9 notFound404
      (run (mount false 0) cancelledFetchRun)).1.consecutive404s = 1 ∧
    (pullSnapshotResponse false true 9 notFound404
      (run (mount false 0) cancelledFetchRun)).1.consecutiveErrors = 1 ∧
    (pullSnapshotResponse false true 9 notFound404
      (run (mount false 0) cancelledFetchRun)).1.backoff = 1600 ∧
    (pullSnapshotResponse false true 9 (FetchOutcome.response 200 (some 1000))
      (run (mount false 0) cancelledFetchRun)).1.lastFrameTs = some 9 ∧
    (run (mount false 0) cancelledFetchThenFour404s).stopped = false ∧
    (pullSnapshotResponse false true 9 notFound404
      (run (mount false 0) cancelledFetchThenFour404s)).1.stopped = true ∧
    (pullSnapshotResponse false true 9 (FetchOutcome.response 200 (some 1000))
      (run (mount false 0) cancelledFetchRun)).1.isLoading
      = (run (mount false 0) cancelledFetchRun).isLoading ∧
    (pullSnapshotResponse false true 9 notFound404
      (run (mount false 0) cancelledFetchRun)).2 = none := by
  decide

/-! ## When the pre-flight probe is issued -/

/-- C21, as the code has it: the pre-flight effect issues a probe exactly in Primary mode
and in Fallback mode without forced fallback; there a failed probe in Fallback moves the
controller to Snapshot.  With forced fallback the controller starts in Fallback, no probe is
issued in Fallback mode, and a probe result changes nothing. -/
theorem preflight_only_when_not_forced (s : LiveVideoState) (ok : Bool) (now : Nat) :
    (preflightActive s = true ↔
      (s.mode = Mode.mjpeg ∨ (s.mode = Mode.fallback ∧ s.forceFallback = false))) ∧
    (s.mode = Mode.fallback → s.forceFallback = false →
      (step s (Event.preflight false now)).mode = Mode.snapshot) ∧
    (s.mode = Mode.fallback → s.forceFallback = true →
      step s (Event.preflight ok now) = s) ∧
    (mount true now).mode = Mode.fallback ∧
    preflightActive (mount true now) = false ∧
    preflightActive (mount false now) = true := by
  refine ⟨?_, ?_, ?_, ?_, ?_, ?_⟩
  · unfold preflightActive
    cases hm : s.mode <;> cases hf : s.forceFallback <;> simp
  · intro hm hf
    simp [step, preflightActive, preflightResult, hm, hf]
  · intro hm hf
    simp [step, preflightActive, hm, hf]
  · simp [mount]
  · simp [preflightActive, mount]
  · simp [preflightActive, mount]

/-- C21 as stated fails: with forceFallback = true the controller starts in Fallback, no
pre-flight probe is issued there, and a failed probe result would not move it to Snapshot. -/
theorem no_preflight_in_forced_fallback :
    (mount (forceFallbackOf true false) 0).mode = Mode.fallback ∧
    preflightActive (mount (forceFallbackOf true false) 0) = false ∧
    (step (mount (forceFallbackOf true false) 0) (Event.preflight false 1)).mode
      = Mode.fallback ∧
    step (mount (forceFallbackOf true false) 0) (Event.preflight false 1)
      = mount (forceFallbackOf true false) 0 := by
  decide

end LiveVideo

/-! ## backendUrls.js: theorems -/

namespace BackendUrls

open Js

theorem trimTrailingSlash_append_slash (b : String) :
    trimTrailingSlash (b ++ "/") = trimTrailingSlash b := by
  unfold trimTrailingSlash
  have h : (b ++ "/").data = b.data ++ ['/'] := by
    rw [String.data_append]
  rw [h]
  simp [List.dropWhile]

theorem trimLeadingSlash_slash_append (p : String) :
    trimLeadingSlash ("/" ++ p) = trimLeadingSlash p := by
  unfold trimLeadingSlash
  have h : ("/" ++ p).data = '/' :: p.data := by
    rw [String.data_append]
    rfl
  rw [h]
  simp [List.dropWhile]

/-- Joining a base with a path that starts with a letter and is not empty. -/
theorem joinUrl_plain_path (b path : String) (hpath : trimLeadingSlash path = path)
    (hne : path ≠ "") : joinUrl b path = trimTrailingSlash b ++ ("/" ++ path) := by
  unfold joinUrl joinUrlInternal
  simp only [hpath, if_neg hne]
  by_cases hb : trimTrailingSlash b = ""
  · rw [if_pos hb, hb]
    rfl
  · rw [if_neg hb, String.append_assoc]

/-- C27: `getBackendBaseUrl` returns the first available source in the order explicit
override (a string argument that is not blank), global runtime override
(`window.__SAFEFALL_BACKEND__`), environment variable, same-origin default on port 5000; in
particular for every string argument `p` that is not blank the result is `p` trimmed of
surrounding white space with all trailing slashes removed, whatever the global override and
the environment hold. -/
theorem getBackendBaseUrl_precedence (normalizeLocalhost : String → String) (rt : Runtime)
    (preferred : JsVal) :
    getBackendBaseUrl normalizeLocalhost rt preferred
      = firstAvailable
          [explicitSource preferred, globalSource rt, environmentSource normalizeLocalhost rt]
          (sameOriginDefault rt) ∧
    (∀ p : String, jsTrim p ≠ "" →
      getBackendBaseUrl normalizeLocalhost rt (JsVal.str p) = trimTrailingSlash (jsTrim p)) ∧
    getBackendBaseUrl normalizeLocalhost busyRuntime (JsVal.str "  http://h:5000// ")
      = "http://h:5000" ∧
    getBackendBaseUrl normalizeLocalhost busyRuntime JsVal.undefined = "http://global:1" := by
  refine ⟨?_, ?_, ?_, ?_⟩
  · obtain ⟨nts, w, vb, va⟩ := rt
    unfold getBackendBaseUrl explicitSource globalSource environmentSource sameOriginDefault
    cases preferred <;> cases w <;> cases hb : envSet vb <;> cases ha : envSet va <;>
      simp only [firstAvailable] <;> split_ifs <;> simp [firstAvailable]
  · intro p hp
    unfold getBackendBaseUrl
    simp [hp]
  · unfold getBackendBaseUrl
    rfl
  · unfold getBackendBaseUrl
    rfl

/-- C28: for every backend base `b`, the primary and the fallback stream URL are the same
string, `b` without trailing slashes followed by "/api/stream/mjpeg", and the snapshot URL
is `b` without trailing slashes followed by "/api/frame/latest"; `joinUrl` is insensitive
to slashes at the joint, so "http://h:5000" and "http://h:5000/" give the same endpoints. -/
theorem endpoint_derivation (b p : String) :
    LiveVideo.mjpegPrimaryUrl b = trimTrailingSlash b ++ "/api/stream/mjpeg" ∧
    LiveVideo.mjpegFallbackUrl b = LiveVideo.mjpegPrimaryUrl b ∧
    LiveVideo.snapshotUrl b = trimTrailingSlash b ++ "/api/frame/latest" ∧
    joinUrl (b ++ "/") ("/" ++ p) = joinUrl b p ∧
    LiveVideo.mjpegPrimaryUrl "http://h:5000" = "http://h:5000/api/stream/mjpeg" ∧
    LiveVideo.mjpegPrimaryUrl "http://h:5000/" = "http://h:5000/api/stream/mjpeg" ∧
    LiveVideo.snapshotUrl "http://h:5000" = "http://h:5000/api/frame/latest" ∧
    LiveVideo.snapshotUrl "http://h:5000/" = "http://h:5000/api/frame/latest" := by
  refine ⟨?_, rfl, ?_, ?_, by decide, by decide, by decide, by decide⟩
  · exact joinUrl_plain_path b "api/stream/mjpeg" (by decide) (by decide)
  · exact joinUrl_plain_path b "api/frame/latest" (by decide) (by decide)
  · unfold joinUrl joinUrlInternal
    rw [trimTrailingSlash_append_slash, trimLeadingSlash_slash_append]

end BackendUrls

/-! ## App.jsx, AlertManager: theorems -/

namespace AlertManager

open Js

theorem isFresh_iff (shown : List JsVal) (n : Notification) :
    isFresh shown n = true ↔ (n.id.truthy = true ∧ n.id ∉ shown) := by
  unfold isFresh setHas
  cases ht : n.id.truthy <;> by_cases hm : n.id ∈ shown <;> simp [hm]

theorem setAdd_of_not_mem (x : JsVal) (set : List JsVal) (h : x ∉ set) :
    setAdd x set = set ++ [x] := by
  simp [setAdd, h]

theorem mem_setAdd (x y : JsVal) (set : List JsVal) :
    y ∈ setAdd x set ↔ (y = x ∨ y ∈ set) := by
  unfold setAdd
  by_cases h : x ∈ set
  · simp only [if_pos h]
    constructor
    · intro hy; exact Or.inr hy
    · rintro (rfl | hy)
      · exact h
      · exact hy
  · simp only [if_neg h, List.mem_append, List.mem_singleton]
    tauto

theorem filter_first_fresh (shown : List JsVal) (pre post : List Notification)
    (n : Notification) (hpre : ∀ m ∈ pre, isFresh shown m = false)
    (hn : isFresh shown n = true) :
    (pre ++ n :: post).filter (isFresh shown) = n :: post.filter (isFresh shown) := by
  have h0 : pre.filter (isFresh shown) = [] := by
    rw [List.filter_eq_nil_iff]
    intro m hm
    simp [hpre m hm]
  rw [List.filter_append, h0, List.nil_append, List.filter_cons_of_pos hn]

/-- The state after `presentFirst`, field by field. -/
theorem presentFirst_eq (nowIso : String) (nowMs : Nat) (n : Notification)
    (s : AlertManagerState) :
    presentFirst nowIso nowMs n s
      = { showAlert := true
          alertData :=
            { createdAt := n.createdAt
              device_id := n.device_id
              type := n.type
              filename := n.filename
              title := n.title.orElse (JsVal.str "알림")
              message := n.message.orElse (JsVal.str "새로운 알림이 있습니다")
              severity := n.severity.orElse (JsVal.str "medium")
              id := n.id }
          shownIds := setAdd n.id s.shownIds } := rfl

/-- A cycle whose list has `n` as its first fresh element presents `n`. -/
theorem pollNotifications_first (nowIso : String) (nowMs : Nat) (data : PollData)
    (s : AlertManagerState) (count : Int) (pre post : List Notification) (n : Notification)
    (hc : data.count = some count) (hpos : 0 < count)
    (hns : data.notifications = some (pre ++ n :: post))
    (hpre : ∀ m ∈ pre, isFresh s.shownIds m = false)
    (hn : isFresh s.shownIds n = true) :
    pollNotifications nowIso nowMs (some data) s = (presentFirst nowIso nowMs n s, some n) := by
  unfold pollNotifications
  simp only [hc, hns, if_pos hpos, filter_first_fresh s.shownIds pre post n hpre hn]

/-- A cycle either changes nothing or presents a fresh element of its list. -/
theorem pollNotifications_cases (nowIso : String) (nowMs : Nat) (resp : Option PollData)
    (s : AlertManagerState) :
    pollNotifications nowIso nowMs resp s = (s, none) ∨
    ∃ (data : PollData) (count : Int) (ns : List Notification) (n : Notification),
      resp = some data ∧ data.count = some count ∧ 0 < count ∧
      data.notifications = some ns ∧ n ∈ ns ∧ isFresh s.shownIds n = true ∧
      pollNotifications nowIso nowMs resp s = (presentFirst nowIso nowMs n s, some n) := by
  cases resp with
  | none => exact Or.inl rfl
  | some data =>
    obtain ⟨count, notifications⟩ := data
    cases count with
    | none => exact Or.inl (by cases notifications <;> rfl)
    | some count =>
      cases notifications with
      | none => exact Or.inl rfl
      | some ns =>
        by_cases hpos : 0 < count
        · cases hf : ns.filter (isFresh s.shownIds) with
          | nil =>
            refine Or.inl ?_
            simp [pollNotifications, hpos, hf]
          | cons first rest =>
            have hmem : first ∈ ns.filter (isFresh s.shownIds) := by
              rw [hf]; exact List.mem_cons_self _ _
            rw [List.mem_filter] at hmem
            refine Or.inr ⟨_, count, ns, first, rfl, rfl, hpos, rfl, hmem.1, hmem.2, ?_⟩
            simp [pollNotifications, hpos, hf]
        · refine Or.inl ?_
          simp [pollNotifications, hpos]

/-- C22: one notification poll cycle.  If the response has a positive count and a list
whose first fresh element (id truthy and not in the dedup set) is `n`, then exactly `n` is
presented, the alert is shown with the id of `n`, and the new dedup set is the old one plus
the id of `n` only; if there is no such element (no response, no positive count, no list,
or no fresh element in it) nothing is presented and the dedup set and the displayed alert
are unchanged. -/
theorem poll_cycle_presents_first_fresh (nowIso : String) (nowMs : Nat) (data : PollData)
    (s : AlertManagerState) :
    (∀ (count : Int) (pre post : List Notification) (n : Notification),
      data.count = some count → 0 < count →
      data.notifications = some (pre ++ n :: post) →
      (∀ m ∈ pre, isFresh s.shownIds m = false) → isFresh s.shownIds n = true →
        (pollNotifications nowIso nowMs (some data) s).2 = some n ∧
        (pollNotifications nowIso nowMs (some data) s).1.showAlert = true ∧
        (pollNotifications nowIso nowMs (some data) s).1.alertData.id = n.id ∧
        (pollNotifications nowIso nowMs (some data) s).1.shownIds = s.shownIds ++ [n.id] ∧
        (∀ x, x ∈ (pollNotifications nowIso nowMs (some data) s).1.shownIds
          ↔ (x = n.id ∨ x ∈ s.shownIds))) ∧
    ((¬ ∃ (count : Int) (ns : List Notification) (n : Notification),
        data.count = some count ∧ 0 < count ∧ data.notifications = some ns ∧
        n ∈ ns ∧ isFresh s.shownIds n = true) →
      pollNotifications nowIso nowMs (some data) s = (s, none)) ∧
    pollNotifications nowIso nowMs none s = (s, none) ∧
    (∀ n : Notification,
      isFresh s.shownIds n = true ↔ (n.id.truthy = true ∧ n.id ∉ s.shownIds)) := by
  refine ⟨?_, ?_, rfl, fun n => isFresh_iff s.shownIds n⟩
  · intro count pre post n hc hpos hns hpre hn
    rw [pollNotifications_first nowIso nowMs data s count pre post n hc hpos hns hpre hn,
      presentFirst_eq]
    have hnot : n.id ∉ s.shownIds := ((isFresh_iff s.shownIds n).1 hn).2
    refine ⟨rfl, rfl, rfl, setAdd_of_not_mem _ _ hnot, fun x => ?_⟩
    exact mem_setAdd n.id x s.shownIds
  · intro hno
    rcases pollNotifications_cases nowIso nowMs (some data) s with h | h
    · exact h
    · obtain ⟨data1, count, ns, n, hd, hc, hpos, hns, hmem, hfresh, _⟩ := h
      cases hd
      exact absurd ⟨count, ns, n, hc, hpos, hns, hmem, hfresh⟩ hno

end AlertManager

/-! ## AlertManager: dedup across cycles -/

namespace AlertManager

open Js

theorem runAlerts_cons (s : AlertManagerState) (log : List Notification) (e : AlertEvent)
    (es : List AlertEvent) :
    runAlerts s log (e :: es)
      = runAlerts (stepAlert s e).1
          (match (stepAlert s e).2 with
           | some n => log ++ [n]
           | none => log) es := rfl

theorem runAlerts_append (es : List AlertEvent) :
    ∀ (s : AlertManagerState) (log : List Notification) (fs : List AlertEvent),
      runAlerts s log (es ++ fs)
        = runAlerts (runAlerts s log es).1 (runAlerts s log es).2 fs := by
  induction es with
  | nil => intro s log fs; rfl
  | cons e es ih =>
    intro s log fs
    rw [List.cons_append, runAlerts_cons, runAlerts_cons, ih]

/-- An event other than a clearing of the cache either presents nothing and keeps the set,
or presents a notification whose id was not in the set and adds that id. -/
theorem stepAlert_cases (s : AlertManagerState) (e : AlertEvent) (he : e.isClear = false) :
    ((stepAlert s e).2 = none ∧ (stepAlert s e).1.shownIds = s.shownIds) ∨
    ∃ n : Notification, (stepAlert s e).2 = some n ∧ n.id ∉ s.shownIds ∧
      (stepAlert s e).1.shownIds = s.shownIds ++ [n.id] := by
  cases e with
  | poll nowIso nowMs resp =>
    rcases pollNotifications_cases nowIso nowMs resp s with h | h
    · exact Or.inl (by simp [stepAlert, h])
    · obtain ⟨_, _, _, n, _, _, _, _, _, hfresh, hres⟩ := h
      have hnot : n.id ∉ s.shownIds := ((isFresh_iff s.shownIds n).1 hfresh).2
      refine Or.inr ⟨n, by simp [stepAlert, hres], hnot, ?_⟩
      simp only [stepAlert, hres, presentFirst_eq]
      exact setAdd_of_not_mem _ _ hnot
  | close ackFails =>
    refine Or.inl ?_
    cases ackFails <;> simp only [stepAlert, handleCloseAlert, ackEndpoint] <;>
      split_ifs <;> simp
  | clearCache => simp [AlertEvent.isClear] at he

theorem runAlerts_inv (es : List AlertEvent) :
    ∀ (s : AlertManagerState) (log : List Notification),
      (∀ e ∈ es, e.isClear = false) →
      (∀ n ∈ log, n.id ∈ s.shownIds) →
      (log.map (fun n => n.id)).Nodup →
      (∀ x ∈ s.shownIds, x ∈ (runAlerts s log es).1.shownIds) ∧
      ((runAlerts s log es).2.map (fun n => n.id)).Nodup ∧
      (∀ n ∈ (runAlerts s log es).2, n ∈ log ∨ n.id ∉ s.shownIds) := by
  induction es with
  | nil =>
    intro s log _ _ hnd
    exact ⟨fun x hx => hx, hnd, fun n hn => Or.inl hn⟩
  | cons e es ih =>
    intro s log hes hlog hnd
    have he : e.isClear = false := hes e (List.mem_cons_self _ _)
    have hrest : ∀ x ∈ es, x.isClear = false :=
      fun x hx => hes x (List.mem_cons_of_mem _ hx)
    rw [runAlerts_cons]
    rcases stepAlert_cases s e he with ⟨h2, h1⟩ | ⟨n, h2, hnot, h1⟩
    · rw [h2]
      have := ih (stepAlert s e).1 log hrest (by rw [h1]; exact hlog) hnd
      rw [h1] at this
      exact this
    · rw [h2]
      have hlog1 : ∀ m ∈ log ++ [n], m.id ∈ (stepAlert s e).1.shownIds := by
        intro m hm
        rw [h1]
        rcases List.mem_append.1 hm with hm | hm
        · exact List.mem_append_left _ (hlog m hm)
        · rw [List.mem_singleton.1 hm]
          exact List.mem_append_right _ (List.mem_singleton_self _)
      have hnd1 : ((log ++ [n]).map (fun n => n.id)).Nodup := by
        rw [List.map_append, List.nodup_append]
        refine ⟨hnd, by simp, ?_⟩
        intro a ha hb
        have hb1 : a = n.id := by simpa using hb
        obtain ⟨m, hm, hma⟩ := List.mem_map.1 ha
        have hmid : m.id = a := hma
        exact hnot (hb1 ▸ hmid ▸ hlog m hm)
      have := ih (stepAlert s e).1 (log ++ [n]) hrest hlog1 hnd1
      rw [h1] at this
      refine ⟨fun x hx => this.1 x (List.mem_append_left _ hx), this.2.1, ?_⟩
      intro m hm
      rcases this.2.2 m hm with hm1 | hm1
      · rcases List.mem_append.1 hm1 with hm2 | hm2
        · exact Or.inl hm2
        · rw [List.mem_singleton.1 hm2]
          exact Or.inr hnot
      · exact Or.inr (fun hx => hm1 (List.mem_append_left _ hx))

/-- C23: along every sequence of events without a clearing of the cache (poll cycles with
any response, dismissals), the dedup set only grows, no notification identifier is presented
more than once, and no identifier that was already in the set is presented. -/
theorem dedup_across_cycles (s : AlertManagerState) (es fs : List AlertEvent)
    (hes : ∀ e ∈ es ++ fs, e.isClear = false) :
    (∀ x ∈ (runAlerts s [] es).1.shownIds, x ∈ (runAlerts s [] (es ++ fs)).1.shownIds) ∧
    ((runAlerts s [] (es ++ fs)).2.map (fun n => n.id)).Nodup ∧
    (∀ n ∈ (runAlerts s [] (es ++ fs)).2, n.id ∉ s.shownIds) := by
  have hwhole := runAlerts_inv (es ++ fs) s [] hes (by simp) (by simp)
  have hleft := runAlerts_inv es s [] (fun e he => hes e (List.mem_append_left _ he))
    (by simp) (by simp)
  refine ⟨?_, hwhole.2.1, ?_⟩
  · rw [runAlerts_append]
    intro x hx
    have hlog : ∀ n ∈ (runAlerts s [] es).2, n.id ∈ (runAlerts s [] es).1.shownIds := by
      have key : ∀ (es : List AlertEvent) (s : AlertManagerState) (log : List Notification),
          (∀ e ∈ es, e.isClear = false) → (∀ n ∈ log, n.id ∈ s.shownIds) →
          ∀ n ∈ (runAlerts s log es).2, n.id ∈ (runAlerts s log es).1.shownIds := by
        intro es
        induction es with
        | nil => intro s log _ hl; exact hl
        | cons e es ih =>
          intro s log hcl hl
          rw [runAlerts_cons]
          have he : e.isClear = false := hcl e (List.mem_cons_self _ _)
          have hrest : ∀ x ∈ es, x.isClear = false :=
            fun x hx => hcl x (List.mem_cons_of_mem _ hx)
          rcases stepAlert_cases s e he with ⟨h2, h1⟩ | ⟨n, h2, _, h1⟩
          · rw [h2]
            exact ih _ log hrest (by rw [h1]; exact hl)
          · rw [h2]
            refine ih _ (log ++ [n]) hrest ?_
            intro m hm
            rw [h1]
            rcases List.mem_append.1 hm with hm | hm
            · exact List.mem_append_left _ (hl m hm)
            · rw [List.mem_singleton.1 hm]
              exact List.mem_append_right _ (List.mem_singleton_self _)
      exact key es s [] (fun e he => hes e (List.mem_append_left _ he)) (by simp)
    exact (runAlerts_inv fs (runAlerts s [] es).1 (runAlerts s [] es).2
      (fun e he => hes e (List.mem_append_right _ he)) hlog hleft.2.1).1 x hx
  · intro n hn
    rcases hwhole.2.2 n hn with h | h
    · simp at h
    · exact h

theorem dedup_across_cycles_witness :
    (∀ x ∈ (runAlerts initialState [] [pollOf [notifA, notifB]]).1.shownIds,
      x ∈ (runAlerts initialState []
        ([pollOf [notifA, notifB]] ++
          [AlertEvent.close true, pollOf [notifA, notifB, notifC],
           pollOf [notifA, notifB, notifC], pollOf [notifA, notifB, notifC]])).1.shownIds) ∧
    ((runAlerts initialState []
        ([pollOf [notifA, notifB]] ++
          [AlertEvent.close true, pollOf [notifA, notifB, notifC],
           pollOf [notifA, notifB, notifC], pollOf [notifA, notifB, notifC]])).2.map
      (fun n => n.id)).Nodup ∧
    (∀ n ∈ (runAlerts initialState []
        ([pollOf [notifA, notifB]] ++
          [AlertEvent.close true, pollOf [notifA, notifB, notifC],
           pollOf [notifA, notifB, notifC], pollOf [notifA, notifB, notifC]])).2,
      n.id ∉ initialState.shownIds) :=
  dedup_across_cycles initialState [pollOf [notifA, notifB]]
    [AlertEvent.close true, pollOf [notifA, notifB, notifC],
     pollOf [notifA, notifB, notifC], pollOf [notifA, notifB, notifC]] (by decide)

end AlertManager

/-! ## AlertManager: presentation order -/

namespace AlertManager

open Js

/-- Cycles that extend the list `pre ++ post`, started when exactly the ids of `pre` have
been shown, present the elements of `post` in order, one per cycle, and after the last
cycle the alert on display is the record of the last presented element. -/
theorem runAlerts_cyclesExtending (cs : List Cycle) :
    ∀ (pre post : List Notification) (s : AlertManagerState) (log : List Notification),
      s.shownIds = pre.map (fun n => n.id) →
      cs.length ≤ post.length →
      (∀ c ∈ cs, 0 < c.count) →
      (∀ n ∈ pre ++ post, n.id.truthy = true) →
      ((pre ++ post).map (fun n => n.id)).Nodup →
      (runAlerts s log (cyclesExtending (pre ++ post) pre.length cs)).2
        = log ++ post.take cs.length ∧
      (runAlerts s log (cyclesExtending (pre ++ post) pre.length cs)).1.shownIds
        = (pre ++ post.take cs.length).map (fun n => n.id) ∧
      (∀ n : Notification, (post.take cs.length).getLast? = some n →
        (runAlerts s log (cyclesExtending (pre ++ post) pre.length cs)).1.showAlert = true ∧
        (runAlerts s log (cyclesExtending (pre ++ post) pre.length cs)).1.alertData
          = { createdAt := n.createdAt
              device_id := n.device_id
              type := n.type
              filename := n.filename
              title := n.title.orElse (JsVal.str "알림")
              message := n.message.orElse (JsVal.str "새로운 알림이 있습니다")
              severity := n.severity.orElse (JsVal.str "medium")
              id := n.id }) := by
  induction cs with
  | nil =>
    intro pre post s log hs _ _ _ _
    simp [cyclesExtending, runAlerts, hs]
  | cons c cs ih =>
    intro pre post s log hs hlen hcount hids hnd
    cases post with
    | nil => simp at hlen
    | cons n post =>
      have htake : (pre ++ n :: post).take (pre.length + 1) = pre ++ [n] := by
        rw [List.take_append]
        rfl
      have hpre : ∀ m ∈ pre, isFresh s.shownIds m = false := by
        intro m hm
        cases hfr : isFresh s.shownIds m
        · rfl
        · have hnot := ((isFresh_iff s.shownIds m).1 hfr).2
          rw [hs] at hnot
          exact absurd (List.mem_map.2 ⟨m, hm, rfl⟩) hnot
      have hnd1 : (pre.map (fun n => n.id) ++ n.id :: post.map (fun n => n.id)).Nodup := by
        simpa [List.map_append] using hnd
      have hn : isFresh s.shownIds n = true := by
        rw [isFresh_iff, hs]
        refine ⟨hids n (by simp), ?_⟩
        intro hmem
        have hdis := (List.nodup_append.1 hnd1).2.2
        exact hdis hmem (List.mem_cons_self _ _)
      have hpoll : stepAlert s
          (AlertEvent.poll c.nowIso c.nowMs
            (some { count := some c.count,
                    notifications := some ((pre ++ n :: post).take (pre.length + 1)
                      ++ c.extra) }))
          = (presentFirst c.nowIso c.nowMs n s, some n) := by
        simp only [stepAlert]
        exact pollNotifications_first c.nowIso c.nowMs _ s c.count pre ([] ++ c.extra) n rfl
          (hcount c (List.mem_cons_self _ _))
          (by rw [htake]; simp) hpre hn
      have hshown : (presentFirst c.nowIso c.nowMs n s).shownIds
          = (pre ++ [n]).map (fun n => n.id) := by
        rw [presentFirst_eq]
        have hnot : n.id ∉ s.shownIds := ((isFresh_iff s.shownIds n).1 hn).2
        show setAdd n.id s.shownIds = _
        rw [setAdd_of_not_mem _ _ hnot, hs]
        simp
      have hsplit : pre ++ n :: post = (pre ++ [n]) ++ post := by simp
      have hlen1 : (pre ++ [n]).length = pre.length + 1 := by simp
      have hih := ih (pre ++ [n]) post (presentFirst c.nowIso c.nowMs n s) (log ++ [n])
        hshown (by simpa using hlen)
        (fun x hx => hcount x (List.mem_cons_of_mem _ hx))
        (by rw [← hsplit]; exact hids) (by rw [← hsplit]; exact hnd)
      rw [← hsplit, hlen1] at hih
      simp only [cyclesExtending, runAlerts_cons, hpoll]
      refine ⟨?_, ?_, ?_⟩
      · rw [hih.1]; simp
      · rw [hih.2.1]; simp
      · intro m hm
        cases cs with
        | nil =>
          have hmn : m = n := by
            simp at hm
            exact hm.symm
          subst hmn
          simp only [cyclesExtending, runAlerts, presentFirst_eq]
          exact ⟨trivial, trivial⟩
        | cons c2 cs2 =>
          cases post with
          | nil => simp at hlen
          | cons q post2 =>
            have hlast : ((q :: post2).take (c2 :: cs2).length).getLast? = some m := by
              simpa [List.take_succ_cons, List.getLast?_cons_cons] using hm
            exact hih.2.2 m hlast

/-- C24: starting from an empty dedup set, if the successive poll cycles (each with a
positive count) return lists that extend a list `L` of distinct truthy identifiers, the
cycle number `k` returning at least the first `k` elements of `L`, then the cycles present
the elements of `L` in list order, one per cycle, and after cycle `k` the alert is shown
with the record built from the `k`-th element of `L`. -/
theorem presentation_follows_list_order (L : List Notification) (cs : List Cycle)
    (hids : ∀ n ∈ L, n.id.truthy = true)
    (hnodup : (L.map (fun n => n.id)).Nodup)
    (hcount : ∀ c ∈ cs, 0 < c.count)
    (hlen : cs.length ≤ L.length) :
    (runAlerts initialState [] (cyclesExtending L 0 cs)).2 = L.take cs.length ∧
    (runAlerts initialState [] (cyclesExtending L 0 cs)).1.shownIds
      = (L.take cs.length).map (fun n => n.id) ∧
    (∀ n : Notification, (L.take cs.length).getLast? = some n →
      (runAlerts initialState [] (cyclesExtending L 0 cs)).1.showAlert = true ∧
      (runAlerts initialState [] (cyclesExtending L 0 cs)).1.alertData
        = { createdAt := n.createdAt
            device_id := n.device_id
            type := n.type
            filename := n.filename
            title := n.title.orElse (JsVal.str "알림")
            message := n.message.orElse (JsVal.str "새로운 알림이 있습니다")
            severity := n.severity.orElse (JsVal.str "medium")
            id := n.id }) := by
  have h := runAlerts_cyclesExtending cs [] L initialState [] rfl hlen hcount
    (by simpa using hids) (by simpa using hnodup)
  simpa using h

theorem presentation_follows_list_order_witness :
    ((runAlerts initialState []
      (cyclesExtending [notifA, notifB, notifC] 0
        [{ nowIso := "", nowMs := 0, count := 2, extra := [notifB] },
         { nowIso := "", nowMs := 3000, count := 3, extra := [notifC] }])).2
      = [notifA, notifB, notifC].take
          [({ nowIso := "", nowMs := 0, count := 2, extra := [notifB] } : Cycle),
           { nowIso := "", nowMs := 3000, count := 3, extra := [notifC] }].length ∧
    (runAlerts initialState []
      (cyclesExtending [notifA, notifB, notifC] 0
        [{ nowIso := "", nowMs := 0, count := 2, extra := [notifB] },
         { nowIso := "", nowMs := 3000, count := 3, extra := [notifC] }])).1.shownIds
      = ([notifA, notifB, notifC].take
          [({ nowIso := "", nowMs := 0, count := 2, extra := [notifB] } : Cycle),
           { nowIso := "", nowMs := 3000, count := 3, extra := [notifC] }].length).map
        (fun n => n.id) ∧
    (∀ n : Notification,
      ([notifA, notifB, notifC].take
          [({ nowIso := "", nowMs := 0, count := 2, extra := [notifB] } : Cycle),
           { nowIso := "", nowMs := 3000, count := 3, extra := [notifC] }].length).getLast?
        = some n →
      (runAlerts initialState []
        (cyclesExtending [notifA, notifB, notifC] 0
          [{ nowIso := "", nowMs := 0, count := 2, extra := [notifB] },
           { nowIso := "", nowMs := 3000, count := 3, extra := [notifC] }])).1.showAlert
        = true ∧
      (runAlerts initialState []
        (cyclesExtending [notifA, notifB, notifC] 0
          [{ nowIso := "", nowMs := 0, count := 2, extra := [notifB] },
           { nowIso := "", nowMs := 3000, count := 3, extra := [notifC] }])).1.alertData
        = { createdAt := n.createdAt
            device_id := n.device_id
            type := n.type
            filename := n.filename
            title := n.title.orElse (JsVal.str "알림")
            message := n.message.orElse (JsVal.str "새로운 알림이 있습니다")
            severity := n.severity.orElse (JsVal.str "medium")
            id := n.id })) ∧
    cyclesExtending [notifA, notifB, notifC] 0
        [{ nowIso := "", nowMs := 0, count := 2, extra := [notifB] },
         { nowIso := "", nowMs := 3000, count := 3, extra := [notifC] }]
      = [AlertEvent.poll "" 0
           (some { count := some 2, notifications := some [notifA, notifB] }),
         AlertEvent.poll "" 3000
           (some { count := some 3, notifications := some [notifA, notifB, notifC] })] ∧
    (runAlerts initialState []
      [AlertEvent.poll "" 0
         (some { count := some 2, notifications := some [notifA, notifB] })]).2
      = [notifA] ∧
    (runAlerts initialState []
      [AlertEvent.poll "" 0
         (some { count := some 2, notifications := some [notifA, notifB] })]).1.showAlert
      = true ∧
    (runAlerts initialState []
      [AlertEvent.poll "" 0
         (some { count := some 2, notifications := some [notifA, notifB] })]).1.alertData.id
      = JsVal.str "A" ∧
    (runAlerts initialState []
      [AlertEvent.poll "" 0
         (some { count := some 2, notifications := some [notifA, notifB] }),
       AlertEvent.poll "" 3000
         (some { count := some 3, notifications := some [notifA, notifB, notifC] })]).2
      = [notifA, notifB] ∧
    (runAlerts initialState []
      [AlertEvent.poll "" 0
         (some { count := some 2, notifications := some [notifA, notifB] }),
       AlertEvent.poll "" 3000
         (some { count := some 3,
                 notifications := some [notifA, notifB, notifC] })]).1.alertData.id
      = JsVal.str "B" :=
  ⟨presentation_follows_list_order [notifA, notifB, notifC]
    [{ nowIso := "", nowMs := 0, count := 2, extra := [notifB] },
     { nowIso := "", nowMs := 3000, count := 3, extra := [notifC] }]
    (by decide) (by decide) (by decide) (by decide),
   by decide, by decide, by decide, by decide, by decide, by decide⟩

/-! ## AlertManager: the alert record -/

/-- C25: for every presented notification `n`, the title of the alert record is `n.title`
when present (truthy) and "알림" otherwise, its message is `n.message` when present and
"새로운 알림이 있습니다" otherwise, its severity is `n.severity` when present and "medium"
otherwise, and its id is `n.id`; every notification a poll cycle presents goes through this
block. -/
theorem alert_record_defaults (nowIso : String) (nowMs : Nat) (n : Notification)
    (s : AlertManagerState) :
    (presentFirst nowIso nowMs n s).alertData.title
      = (if n.title.truthy = true then n.title else JsVal.str "알림") ∧
    (presentFirst nowIso nowMs n s).alertData.message
      = (if n.message.truthy = true then n.message else JsVal.str "새로운 알림이 있습니다") ∧
    (presentFirst nowIso nowMs n s).alertData.severity
      = (if n.severity.truthy = true then n.severity else JsVal.str "medium") ∧
    (presentFirst nowIso nowMs n s).alertData.id = n.id ∧
    (∀ (resp : Option PollData) (m : Notification),
      (pollNotifications nowIso nowMs resp s).2 = some m →
      (pollNotifications nowIso nowMs resp s).1 = presentFirst nowIso nowMs m s) ∧
    (presentFirst nowIso nowMs notifA s).alertData.title = JsVal.str "알림" ∧
    (presentFirst nowIso nowMs notifA s).alertData.message
      = JsVal.str "새로운 알림이 있습니다" ∧
    (presentFirst nowIso nowMs notifA s).alertData.severity = JsVal.str "medium" ∧
    (presentFirst nowIso nowMs fullNotification s).alertData.title = JsVal.str "Fall" ∧
    (presentFirst nowIso nowMs fullNotification s).alertData.message
      = JsVal.str "Living room" ∧
    (presentFirst nowIso nowMs fullNotification s).alertData.severity = JsVal.str "high" := by
  refine ⟨rfl, rfl, rfl, rfl, ?_, rfl, rfl, rfl, rfl, rfl, rfl⟩
  intro resp m hm
  rcases pollNotifications_cases nowIso nowMs resp s with h | h
  · rw [h] at hm
    cases hm
  · obtain ⟨_, _, _, k, _, _, _, _, _, _, hres⟩ := h
    rw [hres] at hm ⊢
    cases hm
    rfl

/-- C30: for an alert built by the poll cycle from notification `n`, the device_id, type,
filename and createdAt of the record are exactly those of `n`, also when they are missing
(they stay undefined); the fallbacks computed inside `showNotification` ("camera_01", the
type derived from the severity, the generated file name, the current time) take effect only
when `additionalData` lacks the key, which never happens on the polling path. -/
theorem alert_record_copies_fields (nowIso : String) (nowMs : Nat) (n : Notification)
    (s : AlertManagerState) :
    (presentFirst nowIso nowMs n s).alertData.device_id = n.device_id ∧
    (presentFirst nowIso nowMs n s).alertData.type = n.type ∧
    (presentFirst nowIso nowMs n s).alertData.filename = n.filename ∧
    (presentFirst nowIso nowMs n s).alertData.createdAt = n.createdAt ∧
    (∀ (resp : Option PollData) (m : Notification),
      (pollNotifications nowIso nowMs resp s).2 = some m →
      (pollNotifications nowIso nowMs resp s).1.alertData.device_id = m.device_id ∧
      (pollNotifications nowIso nowMs resp s).1.alertData.type = m.type ∧
      (pollNotifications nowIso nowMs resp s).1.alertData.filename = m.filename ∧
      (pollNotifications nowIso nowMs resp s).1.alertData.createdAt = m.createdAt) ∧
    (presentFirst nowIso nowMs notifA s).alertData.device_id = JsVal.undefined ∧
    (presentFirst nowIso nowMs notifA s).alertData.type = JsVal.undefined ∧
    (presentFirst nowIso nowMs notifA s).alertData.filename = JsVal.undefined ∧
    (presentFirst nowIso nowMs notifA s).alertData.createdAt = JsVal.undefined ∧
    (showNotification nowIso nowMs (JsVal.str "t") (JsVal.str "m") (JsVal.str "high")
      noAdditionalData s).alertData.device_id = JsVal.str "camera_01" ∧
    (showNotification nowIso nowMs (JsVal.str "t") (JsVal.str "m") (JsVal.str "high")
      noAdditionalData s).alertData.type = JsVal.str "fall" ∧
    (showNotification nowIso nowMs (JsVal.str "t") (JsVal.str "m") (JsVal.str "high")
      noAdditionalData s).alertData.filename
      = JsVal.str ("alert_" ++ toString nowMs ++ ".mp4") ∧
    (showNotification nowIso nowMs (JsVal.str "t") (JsVal.str "m") (JsVal.str "high")
      noAdditionalData s).alertData.createdAt = JsVal.str nowIso := by
  refine ⟨rfl, rfl, rfl, rfl, ?_, rfl, rfl, rfl, rfl, ?_, ?_, ?_, rfl⟩
  · intro resp m hm
    rcases pollNotifications_cases nowIso nowMs resp s with h | h
    · rw [h] at hm
      cases hm
    · obtain ⟨_, _, _, k, _, _, _, _, _, _, hres⟩ := h
      rw [hres] at hm ⊢
      cases hm
      exact ⟨rfl, rfl, rfl, rfl⟩
  · simp [showNotification, noAdditionalData, JsVal.orElse, JsVal.truthy]
  · simp [showNotification, noAdditionalData]
  · simp [showNotification, noAdditionalData, JsVal.orElse, JsVal.truthy]

/-! ## AlertManager: dismissal -/

/-- The result of `handleCloseAlert`, whatever the acknowledgement endpoint does. -/
theorem handleCloseAlert_eq (checkIncident : JsVal → Except String Unit)
    (s : AlertManagerState) :
    handleCloseAlert checkIncident s
      = Except.ok ({ showAlert := false, alertData := emptyAlert, shownIds := s.shownIds },
          if s.alertData.id.truthy = true then [s.alertData.id] else []) := by
  unfold handleCloseAlert
  cases ht : s.alertData.id.truthy
  · simp
  · cases hc : checkIncident s.alertData.id <;> simp

/-- C26: `handleCloseAlert` calls the acknowledge-incident endpoint if and only if the
displayed alert record carries a (truthy) id, and whether that call succeeds, fails or is
skipped, the handler ends without an exception in the state with the alert hidden, the
alert record empty and the dedup set unchanged. -/
theorem close_alert_always_closes (checkIncident : JsVal → Except String Unit)
    (s : AlertManagerState) :
    (∃ calls : List JsVal,
      handleCloseAlert checkIncident s
        = Except.ok ({ showAlert := false, alertData := emptyAlert,
                       shownIds := s.shownIds }, calls) ∧
      (s.alertData.id.truthy = true → calls = [s.alertData.id]) ∧
      (s.alertData.id.truthy = false → calls = [])) ∧
    handleCloseAlert (ackEndpoint true) (presentFirst "" 0 notifA initialState)
      = Except.ok ({ showAlert := false, alertData := emptyAlert,
                     shownIds := [JsVal.str "A"] }, [JsVal.str "A"]) ∧
    handleCloseAlert (ackEndpoint false) (presentFirst "" 0 notifA initialState)
      = Except.ok ({ showAlert := false, alertData := emptyAlert,
                     shownIds := [JsVal.str "A"] }, [JsVal.str "A"]) ∧
    handleCloseAlert (ackEndpoint true) initialState
      = Except.ok ({ showAlert := false, alertData := emptyAlert, shownIds := [] }, []) := by
  refine ⟨⟨_, handleCloseAlert_eq checkIncident s, ?_, ?_⟩, ?_, ?_, ?_⟩
  · intro h; simp [h]
  · intro h; simp [h]
  · rw [handleCloseAlert_eq]; rfl
  · rw [handleCloseAlert_eq]; rfl
  · rw [handleCloseAlert_eq]; rfl

/-- Replacement of the displayed alert, and its dismissal through the handler of the latest
render (the closing buttons): a poll cycle that finds a fresh notification presents it
whether or not another alert is still displayed: in every state whose alert record has id
`x`, if the first fresh notification `n` of the cycle has an id other than `x`, the
displayed record becomes the one for `n`, and a later dismissal through that handler calls
the acknowledgement endpoint with the id of `n` only, never with `x`. -/
theorem newer_alert_replaces_displayed (nowIso : String) (nowMs : Nat) (data : PollData)
    (s : AlertManagerState) (count : Int) (pre post : List Notification) (n : Notification)
    (x : JsVal) (checkIncident : JsVal → Except String Unit)
    (hx : s.alertData.id = x)
    (hc : data.count = some count) (hpos : 0 < count)
    (hns : data.notifications = some (pre ++ n :: post))
    (hpre : ∀ m ∈ pre, isFresh s.shownIds m = false)
    (hn : isFresh s.shownIds n = true) (hne : n.id ≠ x) :
    (pollNotifications nowIso nowMs (some data) s).1.showAlert = true ∧
    (pollNotifications nowIso nowMs (some data) s).1.alertData
      = (presentFirst nowIso nowMs n s).alertData ∧
    (pollNotifications nowIso nowMs (some data) s).1.alertData.id = n.id ∧
    (pollNotifications nowIso nowMs (some data) s).1.alertData.id ≠ s.alertData.id ∧
    handleCloseAlert checkIncident (pollNotifications nowIso nowMs (some data) s).1
      = Except.ok ({ showAlert := false, alertData := emptyAlert,
                     shownIds := s.shownIds ++ [n.id] }, [n.id]) ∧
    x ∉ [n.id] := by
  have hnot : n.id ∉ s.shownIds := ((isFresh_iff s.shownIds n).1 hn).2
  have htruthy : n.id.truthy = true := ((isFresh_iff s.shownIds n).1 hn).1
  rw [pollNotifications_first nowIso nowMs data s count pre post n hc hpos hns hpre hn]
  refine ⟨rfl, rfl, rfl, ?_, ?_, ?_⟩
  · rw [hx]; exact hne
  · rw [handleCloseAlert_eq, presentFirst_eq]
    simp [htruthy, setAdd_of_not_mem _ _ hnot]
  · simp only [List.mem_singleton]
    exact fun h => hne h.symm

theorem newer_alert_replaces_displayed_witness :
    (pollNotifications "" 3000
      (some { count := some 2, notifications := some ([notifA] ++ notifB :: []) })
      (presentFirst "" 0 notifA initialState)).1.showAlert = true ∧
    (pollNotifications "" 3000
      (some { count := some 2, notifications := some ([notifA] ++ notifB :: []) })
      (presentFirst "" 0 notifA initialState)).1.alertData
      = (presentFirst "" 3000 notifB (presentFirst "" 0 notifA initialState)).alertData ∧
    (pollNotifications "" 3000
      (some { count := some 2, notifications := some ([notifA] ++ notifB :: []) })
      (presentFirst "" 0 notifA initialState)).1.alertData.id = notifB.id ∧
    (pollNotifications "" 3000
      (some { count := some 2, notifications := some ([notifA] ++ notifB :: []) })
      (presentFirst "" 0 notifA initialState)).1.alertData.id
      ≠ (presentFirst "" 0 notifA initialState).alertData.id ∧
    handleCloseAlert (ackEndpoint false)
      (pollNotifications "" 3000
        (some { count := some 2, notifications := some ([notifA] ++ notifB :: []) })
        (presentFirst "" 0 notifA initialState)).1
      = Except.ok ({ showAlert := false, alertData := emptyAlert,
                     shownIds := (presentFirst "" 0 notifA initialState).shownIds
                       ++ [notifB.id] }, [notifB.id]) ∧
    JsVal.str "A" ∉ [notifB.id] :=
  newer_alert_replaces_displayed "" 3000
    { count := some 2, notifications := some ([notifA] ++ notifB :: []) }
    (presentFirst "" 0 notifA initialState) 2 [notifA] [] notifB (JsVal.str "A")
    (ackEndpoint false) rfl rfl (by decide) rfl (by decide) (by decide) (by decide)

end AlertManager

/-! ## LiveVideo: callbacks that run before the re-render -/

namespace LiveVideo

/-- The probe continuation that captured the current mode. -/
theorem preflightResult_eq_at (c ok : Bool) (now : Nat) (s : LiveVideoState) :
    preflightResult c ok now s = preflightResultAt s.mode c ok now s := rfl

/-- The error handler that captured the current mode. -/
theorem handleError_eq_at (now : Nat) (s : LiveVideoState) :
    handleError now s = handleErrorAt s.mode now s := rfl

/-- The interval callback that captured the current time stamp. -/
theorem staleTick_eq_at (imgPresent : Bool) (now : Nat) (s : LiveVideoState) :
    staleTick imgPresent now s = staleTickAt s.lastFrameTs imgPresent now s := rfl

/-- An event handled right after a render: nothing has been written since. -/
theorem step_eq_stepCaptured (s : LiveVideoState) (e : Event) :
    step s e = stepCaptured s s e := by
  cases e <;> rfl

/-- A run with a re-render after every callback is a run of one-callback batches. -/
theorem run_eq_runBatches (es : List Event) :
    ∀ s : LiveVideoState, run s es = runBatches s (es.map (fun e => [e])) := by
  induction es with
  | nil => intro s; rfl
  | cons e es ih =>
    intro s
    rw [run_cons, ih (step s e), step_eq_stepCaptured]
    rfl

/-- Load-error events delivered while the rendered mode is snapshot change nothing. -/
theorem run_errors_in_snapshot (es : List Event) :
    ∀ s : LiveVideoState, s.mode = Mode.snapshot →
      (∀ e ∈ es, ∃ now, e = Event.error now) → run s es = s := by
  induction es with
  | nil => intro s _ _; rfl
  | cons e es ih =>
    intro s hm h
    obtain ⟨now, he⟩ := h e (List.mem_cons_self _ _)
    have hstep : step s e = s := by
      rw [he]
      simp [step, hm]
    rw [run_cons, hstep]
    exact ih s hm (fun x hx => h x (List.mem_cons_of_mem _ hx))

/-- C2 (the code breaks it): in `staleProbeBatches` a frame loads at time 1000, the component
renders, the watchdog check at time 7001 sets the mode to snapshot, and the result of the
failed probe issued at mount arrives before the effect cleanup of the next render has set
`cancelled`: its continuation still holds the mode of its render, "mjpeg", and sets the mode
to fallback.  No event of the run is a reset and the mode goes from snapshot back to
fallback.  The continuation that captured the mount state writes fallback whatever the
cells hold; with a render between the two callbacks (`renderedProbeBatches`) the mode stays
snapshot, and with a render after every callback the mode never moves backwards. -/
theorem stale_probe_moves_mode_back :
    (runBatches (mount false 0) staleStreamBatches).mode = Mode.snapshot ∧
    (runBatches (mount false 0) staleProbeBatches).mode = Mode.fallback ∧
    (runBatches (mount false 0) staleProbeBatches).mode.rank
      < (runBatches (mount false 0) staleStreamBatches).mode.rank ∧
    staleProbeBatches
      = [ [Event.load (some (640, 480)) 1000],
          [Event.staleTick true 7001, Event.preflight false 7002] ] ∧
    (∀ b ∈ staleProbeBatches, ∀ e ∈ b, e.isReset = false) ∧
    (runBatch (mount false 0) [Event.load (some (640, 480)) 1000]).mode = Mode.mjpeg ∧
    (stepCaptured (runBatch (mount false 0) [Event.load (some (640, 480)) 1000])
      (runBatch (mount false 0) [Event.load (some (640, 480)) 1000])
      (Event.staleTick true 7001)).mode = Mode.snapshot ∧
    (stepCaptured (runBatch (mount false 0) [Event.load (some (640, 480)) 1000])
      (stepCaptured (runBatch (mount false 0) [Event.load (some (640, 480)) 1000])
        (runBatch (mount false 0) [Event.load (some (640, 480)) 1000])
        (Event.staleTick true 7001))
      (Event.preflight false 7002)).mode = Mode.fallback ∧
    (∀ (cells : LiveVideoState) (now : Nat),
      (stepCaptured (mount false 0) cells (Event.preflight false now)).mode
        = Mode.fallback) ∧
    (runBatches (mount false 0) renderedProbeBatches).mode = Mode.snapshot ∧
    (∀ (s : LiveVideoState) (es : List Event), (∀ e ∈ es, e.isReset = false) →
      s.mode.rank ≤ (runBatches s (es.map (fun e => [e]))).mode.rank) := by
  refine ⟨by decide, by decide, by decide, rfl, by decide, by decide, by decide, by decide,
    ?_, by decide, ?_⟩
  · intro cells now
    rfl
  · intro s es hes
    rw [← run_eq_runBatches]
    exact run_rank_mono es s hes

/-- C14: a load-error event in snapshot mode changes nothing.  The image element rendered in
snapshot mode (lines 546-559) has no `onError`, so `handleError` is not run: for every
rendered state with mode snapshot and every value `cells` of the state cells, the event
leaves `cells` as it is, the whole state (isLoading, errorType, httpErrorCode, both
counters, backoff, mode, stopped, retry, tick, lastFrameTs) included, and so does every
sequence of load-error events. -/
theorem error_event_in_snapshot_is_noop (rendered cells : LiveVideoState) (now : Nat)
    (hm : rendered.mode = Mode.snapshot) :
    stepCaptured rendered cells (Event.error now) = cells ∧
    step rendered (Event.error now) = rendered ∧
    runBatch rendered [Event.error now] = rendered ∧
    (∀ es : List Event, (∀ e ∈ es, ∃ t, e = Event.error t) → run rendered es = rendered) := by
  refine ⟨?_, ?_, ?_, ?_⟩
  · simp [stepCaptured, hm]
  · simp [step, hm]
  · simp [runBatch, stepCaptured, hm]
  · intro es hes
    exact run_errors_in_snapshot es rendered hm hes

theorem error_event_in_snapshot_is_noop_witness :
    (run (mount false 0) snapshotFrameRun).mode = Mode.snapshot ∧
    (run (mount false 0) snapshotFrameRun).isLoading = false ∧
    (run (mount false 0) snapshotFrameRun).backoff = 800 ∧
    (stepCaptured (run (mount false 0) snapshotFrameRun)
        (run (mount false 0) snapshotFrameRun) (Event.error 4)
      = run (mount false 0) snapshotFrameRun ∧
     step (run (mount false 0) snapshotFrameRun) (Event.error 4)
      = run (mount false 0) snapshotFrameRun ∧
     runBatch (run (mount false 0) snapshotFrameRun) [Event.error 4]
      = run (mount false 0) snapshotFrameRun ∧
     (∀ es : List Event, (∀ e ∈ es, ∃ t, e = Event.error t) →
       run (run (mount false 0) snapshotFrameRun) es
         = run (mount false 0) snapshotFrameRun)) :=
  ⟨by decide, by decide, by decide,
   error_event_in_snapshot_is_noop (run (mount false 0) snapshotFrameRun)
     (run (mount false 0) snapshotFrameRun) 4 (by decide)⟩

end LiveVideo

/-! ## AlertManager: dismissal with the Escape key -/

namespace AlertManager

open Js

/-- The handler `handleCloseAlert` of the latest render. -/
theorem handleCloseAlert_eq_at (checkIncident : JsVal → Except String Unit)
    (s : AlertManagerState) :
    handleCloseAlert checkIncident s = handleCloseAlertAt s.alertData checkIncident s := rfl

/-- C29 (the code breaks it): in `replacedAlertRun` the first poll presents A and the second
poll, while A is still displayed, presents B: the displayed record is the one for B.  The
keydown listener of Alter.jsx (lines 83-97, dependency list `[isVisible]`) was registered
when A appeared and still calls the `handleCloseAlert` of that render, which holds the
record of A: a dismissal with the Escape key acknowledges A and never B, while a dismissal
with a closing button acknowledges B. -/
theorem escape_acknowledges_replaced_alert :
    (runPage initialPage [] replacedAlertRun).1.manager.showAlert = true ∧
    (runPage initialPage [] replacedAlertRun).1.manager.alertData.id = JsVal.str "B" ∧
    (runPage initialPage [] replacedAlertRun).2 = [] ∧
    (runPage initialPage [] [PageEvent.poll "" 0
        (some { count := some 2, notifications := some [notifA, notifB] })]).1.manager.alertData.id
      = JsVal.str "A" ∧
    (runPage initialPage [] (replacedAlertRun ++ [PageEvent.escapeKey false])).2
      = [JsVal.str "A"] ∧
    (runPage initialPage [] (replacedAlertRun ++ [PageEvent.escapeKey true])).2
      = [JsVal.str "A"] ∧
    (runPage initialPage []
      (replacedAlertRun ++ [PageEvent.escapeKey false])).1.manager.showAlert = false ∧
    JsVal.str "B" ∉ (runPage initialPage []
      (replacedAlertRun ++ [PageEvent.escapeKey false, PageEvent.escapeKey false,
        PageEvent.closeButton false])).2 ∧
    (runPage initialPage [] (replacedAlertRun ++ [PageEvent.closeButton false])).2
      = [JsVal.str "B"] ∧
    (∀ (s : AlertManagerState) (captured : AlertData) (ackFails : Bool),
      (stepPage { manager := s, escListener := some captured }
        (PageEvent.escapeKey ackFails)).2
        = if captured.id.truthy = true then [captured.id] else []) := by
  refine ⟨by decide, by decide, by decide, by decide, by decide, by decide, by decide,
    by decide, by decide, ?_⟩
  intro s captured ackFails
  simp only [stepPage, handleCloseAlertAt, ackEndpoint]
  cases captured.id.truthy <;> cases ackFails <;> rfl

end AlertManager
